import Mathlib

/-!
# caddy_telegram: the Caddyfile mutator, the container reload client and the message handler

A shallow embedding of `app.go`.  Go strings are modelled as lists of characters
(`Str`); the operations applied to file content (`Contains`, `Split`, `Join`) do not depend
on the alphabet, so a character stands for a byte there.  The file system, the clock, the
Docker daemon behind the unix socket and the chat transport are explicit inputs and
outputs of the embedded functions.  Errors are modelled by their message (`err.Error()`),
`nil` by `none`.  The mutex of `addIPToCaddyfile` makes its calls atomic: concurrent calls
are the sequential composition of the calls in the order the mutex admits them.
-/

namespace CaddyTelegram

/-- A Go `string`. -/
abbrev Str := List Char

/-! ## The Go string helpers the program calls -/

/-- Go `strings.HasPrefix(s, p)`. -/
def HasPrefix (s p : Str) : Bool := p.isPrefixOf s

/-- Go `strings.TrimPrefix(s, p)`: `s` without the leading `p`, or `s` itself. -/
def TrimPrefix (s p : Str) : Str := if HasPrefix s p then s.drop p.length else s

/-- Go `strings.Contains(s, substr)`: `substr` occurs somewhere within `s`. -/
def Contains : Str → Str → Bool
  | [], sub => sub.isEmpty
  | c :: rest, sub => HasPrefix (c :: rest) sub || Contains rest sub

/-- The scan behind `strings.Split` for a non-empty separator: `cur` holds the characters
of the current piece (latest first) and `skip` the characters of a matched separator that
are still to be passed over. -/
def splitGo (sep : Str) : Str → Str → Nat → List Str
  | [], cur, _ => [cur.reverse]
  | _ :: rest, cur, skip + 1 => splitGo sep rest cur skip
  | c :: rest, cur, 0 =>
    if HasPrefix (c :: rest) sep then cur.reverse :: splitGo sep rest [] (sep.length - 1)
    else splitGo sep rest (c :: cur) 0

/-- Go `strings.Split(s, sep)`: the pieces of `s` between the occurrences of `sep`, taken
leftmost first; an empty `sep` splits after every character. -/
def Split (s sep : Str) : List Str :=
  if sep = [] then s.map (fun c => [c]) else splitGo sep s [] 0

/-- Go `strings.Join(elems, sep)`. -/
def Join (elems : List Str) (sep : Str) : Str := sep.intercalate elems

/-- Go `unicode.IsSpace`: the Unicode White_Space property. -/
def isSpace (c : Char) : Bool :=
  let n := c.toNat
  n = 0x09 || n = 0x0A || n = 0x0B || n = 0x0C || n = 0x0D || n = 0x20 || n = 0x85 || n = 0xA0
    || n = 0x1680 || (0x2000 ≤ n && n ≤ 0x200A) || n = 0x2028 || n = 0x2029 || n = 0x202F
    || n = 0x205F || n = 0x3000

/-- Go `strings.TrimSpace(s)`: `s` without leading and trailing white space. -/
def TrimSpace (s : Str) : Str := ((s.dropWhile isSpace).reverse.dropWhile isSpace).reverse

/-- The scan behind `strings.Fields`; `cur` is the field being read, latest character first. -/
def fieldsGo : Str → Str → List Str
  | [], cur => if cur = [] then [] else [cur.reverse]
  | c :: rest, cur =>
    if isSpace c then
      if cur = [] then fieldsGo rest [] else cur.reverse :: fieldsGo rest []
    else fieldsGo rest (c :: cur)

/-- Go `strings.Fields(s)`: the maximal runs of non-space characters of `s`. -/
def Fields (s : Str) : List Str := fieldsGo s []

/-! ## IP validator (`isValidIP`, app.go 123-126) -/

/-- Modelled from the spec: an ASCII decimal digit, as `net.ParseIP` (Go standard library,
not under src/) reads the fields of an IPv4 literal. -/
def isDigit (c : Char) : Bool := decide ('0' ≤ c) && decide (c ≤ '9')

/-- Modelled from the spec: an ASCII hexadecimal digit, either case, as `net.ParseIP` (Go
standard library, not under src/) reads the groups of an IPv6 literal. -/
def isHexDigit (c : Char) : Bool :=
  isDigit c || (decide ('a' ≤ c) && decide (c ≤ 'f')) || (decide ('A' ≤ c) && decide (c ≤ 'F'))

/-- Modelled from the spec: the number a string of decimal digits denotes (part of the
model of `net.ParseIP`, which is not under src/). -/
def decimalValue (s : Str) : Nat := s.foldl (fun acc c => acc * 10 + (c.toNat - 48)) 0

/-- Modelled from the spec: one field of a dotted-decimal IPv4 literal as `net.ParseIP` of
the Go standard library (not under src/) reads it: one or more decimal digits, no leading
zero unless the field is `0` itself, value at most 255. -/
def isIPv4Field (f : Str) : Bool :=
  !f.isEmpty && f.all isDigit && (f.head? != some '0' || f.length == 1)
    && decide (decimalValue f ≤ 255)

/-- Modelled from the spec: a standard-form IPv4 literal (`net.ParseIP` of the Go standard
library is not under src/): exactly four fields separated by dots. -/
def isIPv4Literal (s : Str) : Bool :=
  let fs := Split s ".".toList
  fs.length == 4 && fs.all isIPv4Field

/-- Modelled from the spec: one colon-separated group of an IPv6 literal as `net.ParseIP`
reads it: one to four hexadecimal digits. -/
def isHexField (f : Str) : Bool :=
  decide (1 ≤ f.length) && decide (f.length ≤ 4) && f.all isHexDigit

/-- Modelled from the spec: the number of 16-bit pieces a colon-separated run of groups
stands for, `none` when a group is ill formed.  With `v4` set the last group may be a
dotted IPv4 literal, which stands for two pieces. -/
def countPieces (v4 : Bool) : List Str → Option Nat
  | [] => some 0
  | [f] =>
    if isHexField f then some 1
    else if v4 && isIPv4Literal f then some 2
    else none
  | f :: g :: fs =>
    if isHexField f then (countPieces v4 (g :: fs)).map (· + 1) else none

/-- Modelled from the spec: the text before and after the first `::` of `s`, if there is
one (part of the model of `net.ParseIP`, which is not under src/). -/
def splitEllipsis : Str → Option (Str × Str)
  | [] => none
  | c :: rest =>
    if HasPrefix (c :: rest) "::".toList then some ([], rest.drop 1)
    else (splitEllipsis rest).map (fun lr => (c :: lr.1, lr.2))

/-- Modelled from the spec: the 16-bit pieces written on one side of the `::`; an empty
side has none (part of the model of `net.ParseIP`, which is not under src/). -/
def sidePieces (v4 : Bool) (side : Str) : Option Nat :=
  if side = [] then some 0 else countPieces v4 (Split side ":".toList)

/-- Modelled from the spec: a standard-form IPv6 literal (`net.ParseIP` of the Go standard
library is not under src/): eight 16-bit pieces written as colon-separated hexadecimal
groups, at most one `::` standing for one or more zero pieces, the last two pieces
optionally written as a dotted IPv4 literal; no zone, no prefix length. -/
def isIPv6Literal (s : Str) : Bool :=
  match splitEllipsis s with
  | none => countPieces true (Split s ":".toList) == some 8
  | some (l, r) =>
    match sidePieces false l, sidePieces true r with
    | some a, some b => decide (a + b ≤ 7)
    | _, _ => false

/-- Modelled from the spec: the value `net.ParseIP` (not under src/) returns, reduced to
the address family; the program only tests it against `nil`, so the sixteen bytes are not
modelled. -/
inductive IP where
  | v4
  | v6
  deriving DecidableEq, Repr

/-- Modelled from the spec: `net.ParseIP` of the Go standard library, which is not under
src/: the address when `s` is a standard-form IPv4 or IPv6 literal, `nil` (`none`)
otherwise. -/
def ParseIP (s : Str) : Option IP :=
  if isIPv4Literal s then some IP.v4
  else if isIPv6Literal s then some IP.v6
  else none

/-- `isValidIP` (app.go 123-126): `net.ParseIP(s) != nil`. -/
def isValidIP (s : Str) : Bool := (ParseIP s).isSome

/-- The characters an address accepted by `isValidIP` is made of. -/
def isAddressChar (c : Char) : Bool := isHexDigit c || c == '.' || c == ':'

/-! ## Configuration mutator (`addIPToCaddyfile`, app.go 128-172) -/

deriving instance DecidableEq for Except

/-- What `os.WriteFile` does to one file: it succeeds, or it fails with an error message
and leaves the file reading as `after` (untouched, truncated, ...). -/
inductive WriteResult where
  | ok
  | failed (err : Str) (after : Except Str Str)
  deriving DecidableEq

/-- The file system as the program sees it: what `os.ReadFile` returns for each path
(content, or an error message), how a write of given data to a path would end, and the
calls of `os.WriteFile` made so far (path and data, oldest first). -/
structure FileSystem where
  files : Str → Except Str Str
  writeResult : Str → Str → WriteResult
  writes : List (Str × Str)

/-- Go `os.ReadFile(path)`. -/
def FileSystem.ReadFile (fs : FileSystem) (path : Str) : Except Str Str := fs.files path

/-- The file system after a call of `os.WriteFile(path, data, _)` that leaves `path`
reading as `v`. -/
def FileSystem.set (fs : FileSystem) (path data : Str) (v : Except Str Str) : FileSystem :=
  { fs with
    files := fun p => if p = path then v else fs.files p
    writes := fs.writes ++ [(path, data)] }

/-- Go `os.WriteFile(path, data, 0644)`: the file system afterwards and the error. -/
def FileSystem.WriteFile (fs : FileSystem) (path data : Str) : FileSystem × Option Str :=
  match fs.writeResult path data with
  | WriteResult.ok => (fs.set path data (Except.ok data), none)
  | WriteResult.failed err after => (fs.set path data after, some err)

/-- The insertion marker the loop looks for (app.go 150). -/
def marker : Str := "# add here".toList

/-- The text of the duplicate check, `fmt.Sprintf("not remote_ip %s", newIP)` (app.go 137). -/
def ruleText (newIP : Str) : Str := "not remote_ip ".toList ++ newIP

/-- The inserted line, `fmt.Sprintf("\t\t\tnot remote_ip %s", newIP)` (app.go 152). -/
def ruleLine (newIP : Str) : Str := "\t\t\tnot remote_ip ".toList ++ newIP

/-- The variables of the loop of app.go 142-155. -/
structure ScanState where
  out : List Str
  changed : Bool
  foundMarker : Bool

/-- One iteration of the loop (app.go 147-154). -/
def scanStep (newIP : Str) (st : ScanState) (line : Str) : ScanState :=
  let out := st.out ++ [line]
  if Contains line marker then
    { out := out ++ [ruleLine newIP], changed := true, foundMarker := true }
  else { st with out := out }

/-- The loop of app.go 146-155 over all lines, from the initial variables. -/
def scanLines (newIP : Str) (lines : List Str) : ScanState :=
  lines.foldl (scanStep newIP) { out := [], changed := false, foundMarker := false }

/-- The backup path, `caddyFilePath + ".bak." + time.Now().Format("20060102T150405")`;
`now` is the formatted time. -/
def backupPath (caddyFilePath now : Str) : Str := caddyFilePath ++ ".bak.".toList ++ now

/-- The error of a missing marker (app.go 158). -/
def errNoMarker : Str := "no # add here marker found in Caddyfile".toList

/-- `addIPToCaddyfile` (app.go 128-172) as one step on the file system; the mutex makes
each call atomic with respect to the others.  `caddyFilePath` is the global of that name,
`now` the formatted current time.  Returns the file system afterwards, the boolean result
and the error (`none` for `nil`). -/
def addIPToCaddyfile (caddyFilePath now newIP : Str) (fs : FileSystem) :
    FileSystem × Bool × Option Str :=
  match fs.ReadFile caddyFilePath with
  | Except.error e => (fs, false, some ("read caddyfile: ".toList ++ e))
  | Except.ok data =>
    if Contains data (ruleText newIP) then (fs, false, none)
    else
      let lines := Split data "\n".toList
      let st := scanLines newIP lines
      if !st.foundMarker then (fs, false, some errNoMarker)
      else
        match fs.WriteFile (backupPath caddyFilePath now) data with
        | (fs1, some e) => (fs1, false, some ("write backup: ".toList ++ e))
        | (fs1, none) =>
          let newContent := Join st.out "\n".toList
          match fs1.WriteFile caddyFilePath newContent with
          | (fs2, some e) => (fs2, false, some ("write caddyfile: ".toList ++ e))
          | (fs2, none) => (fs2, st.changed, none)

/-- The document the spec describes for a successful insertion: every line kept in place,
and the rule line of `newIP` added right after each line that contains the marker. -/
def insertAfterMarkers (newIP : Str) (lines : List Str) : List Str :=
  lines.flatMap (fun l => if Contains l marker then [l, ruleLine newIP] else [l])

/-- The number of lines of a document (split on `"\n"`) that contain the marker. -/
def markerCount (data : Str) : Nat :=
  (Split data "\n".toList).countP (fun l => Contains l marker)

/-- A file system holding `doc` at `path` and nothing else, on which every write succeeds. -/
def singleFile (path doc : Str) : FileSystem :=
  { files := fun p =>
      if p = path then Except.ok doc else Except.error "no such file or directory".toList
    writeResult := fun _ _ => WriteResult.ok
    writes := [] }

/-- The default of `caddyFilePath` (app.go 24). -/
def defaultCaddyFilePath : Str := "/etc/caddy/Caddyfile".toList

/-- A formatted time, as `time.Now().Format("20060102T150405")` gives it. -/
def sampleTime : Str := "20250101T120000".toList

/-- The document of the end-to-end scenario of the spec. -/
def scenarioDoc : Str := "line1\n# add here\nline2".toList

/-- A file system holding `doc` at `path` on which the write of the backup at
`path.bak.now` fails with "permission denied" and creates nothing. -/
def backupDenied (path now doc : Str) : FileSystem :=
  { files := fun p =>
      if p = path then Except.ok doc else Except.error "no such file or directory".toList
    writeResult := fun p _ =>
      if p = backupPath path now then
        WriteResult.failed "permission denied".toList
          (Except.error "no such file or directory".toList)
      else WriteResult.ok
    writes := [] }

/-! ## Container exec client (`reloadCaddyInContainer`, app.go 174-257) -/

/-- The part of an `http.Response` the client looks at; `Body` is what `io.ReadAll` or the
JSON decoder reads from it. -/
structure HttpResponse where
  StatusCode : Int
  Body : Str
  deriving DecidableEq

/-- One entry of the decoded `GET /containers/json` answer (app.go 187-190). -/
structure Container where
  ID : Str
  Names : List Str
  deriving DecidableEq

/-- The HTTP client bound to the unix socket: the answer (or transport error) of the
daemon to a GET of a URL and to a POST of a URL, content type and body. -/
structure HttpClient where
  Get : Str → Except Str HttpResponse
  Post : Str → Str → Str → Except Str HttpResponse

/-- Everything outside the program that the handler reads: the daemon reached through each
socket path, the library decoders and formatters whose code is not part of the program,
and the clock. -/
structure Env where
  /-- `httpClientForUnixSocket(sockPath)` -/
  client : Str → HttpClient
  /-- `json.NewDecoder(body).Decode(&containers)` -/
  decodeContainers : Str → Except Str (List Container)
  /-- `json.NewDecoder(body).Decode(&createResp)`, giving `createResp.ID` -/
  decodeCreateResp : Str → Except Str Str
  /-- The `%q` verb of `fmt` -/
  quote : Str → Str
  /-- `fmt.Sscan(s, &n)` on an `int64` holding 0: the value of `n` afterwards, and the error -/
  Sscan : Str → Int × Option Str
  /-- `time.Now().Format("20060102T150405")` -/
  now : Str

/-- The inner loop of app.go 197-202 for container `c`: the value of `containerID`
afterwards. -/
def matchNames (c : Container) (containerName containerID : Str) : List Str → Str
  | [] => containerID
  | n :: ns =>
    if TrimPrefix n "/".toList = containerName then c.ID
    else matchNames c containerName containerID ns

/-- The outer loop of app.go 196-206 from a given value of `containerID`. -/
def findContainer (containerName : Str) : Str → List Container → Str
  | containerID, [] => containerID
  | containerID, c :: cs =>
    let id := matchNames c containerName containerID c.Names
    if id ≠ [] then id else findContainer containerName id cs

/-- Lines 195-206 of app.go: `containerID` after the search, `""` when nothing was
selected. -/
def resolveContainer (containers : List Container) (containerName : Str) : Str :=
  findContainer containerName [] containers

/-- The error of app.go 208, `fmt.Errorf("container %q not found", containerName)`. -/
def errNotFound (env : Env) (containerName : Str) : Str :=
  "container ".toList ++ env.quote containerName ++ " not found".toList

/-- The JSON of `createExecReq` (app.go 216-221). -/
def createExecBody : Str :=
  ("\x7b\"AttachStdout\":false,\"AttachStderr\":false,\"Cmd\":[\"caddy\",\"reload\"," ++
    "\"--config\",\"/etc/caddy/Caddyfile\",\"--adapter\",\"caddyfile\"]\x7d").toList

/-- The JSON of `startReq` (app.go 244-245). -/
def startBody : Str := "\x7b\"Detach\":true,\"Tty\":false\x7d".toList

/-- The URL of the container list (app.go 177). -/
def listURL : Str := "http://unix/containers/json".toList

/-- The content type of both POST requests. -/
def jsonType : Str := "application/json".toList

/-- The exec-creation URL (app.go 222). -/
def execURL (containerID : Str) : Str :=
  "http://unix/containers/".toList ++ containerID ++ "/exec".toList

/-- The exec-start URL (app.go 243). -/
def startURL (execID : Str) : Str := "http://unix/exec/".toList ++ execID ++ "/start".toList

/-- Lines 243-256 of app.go: start the exec instance `execID`. -/
def startExec (client : HttpClient) (execID : Str) : Option Str :=
  match client.Post (startURL execID) jsonType startBody with
  | Except.error e => some ("docker start exec: ".toList ++ e)
  | Except.ok startResp =>
    if startResp.StatusCode ≥ 400 then
      some ("docker start exec failed: ".toList ++ startResp.Body)
    else none

/-- Lines 211-256 of app.go: create the exec instance in container `containerID`, then
start it. -/
def createExec (env : Env) (client : HttpClient) (containerID : Str) : Option Str :=
  match client.Post (execURL containerID) jsonType createExecBody with
  | Except.error e => some ("docker create exec: ".toList ++ e)
  | Except.ok execResp =>
    if execResp.StatusCode ≥ 400 then
      some ("docker create exec failed: ".toList ++ execResp.Body)
    else
      match env.decodeCreateResp execResp.Body with
      | Except.error e => some ("decode create exec resp: ".toList ++ e)
      | Except.ok execID =>
        if execID = [] then some "empty exec id".toList
        else startExec client execID

/-- `reloadCaddyInContainer` (app.go 174-257): the returned error, `none` for `nil`.  The
body after the container is resolved is `createExec`. -/
def reloadCaddyInContainer (env : Env) (sockPath containerName : Str) : Option Str :=
  let client := env.client sockPath
  match client.Get listURL with
  | Except.error e => some ("docker list containers: ".toList ++ e)
  | Except.ok resp =>
    if resp.StatusCode ≥ 400 then some ("docker list containers failed: ".toList ++ resp.Body)
    else
      match env.decodeContainers resp.Body with
      | Except.error e => some ("decode containers list: ".toList ++ e)
      | Except.ok containers =>
        let containerID := resolveContainer containers containerName
        if containerID = [] then some (errNotFound env containerName)
        else createExec env client containerID

/-- A container carries the requested name: one of its names equals it once the leading
"/" is stripped. -/
def hasName (containerName : Str) (c : Container) : Bool :=
  c.Names.any (fun n => decide (TrimPrefix n "/".toList = containerName))

/-- A daemon that answers the three requests of a reload with the given status codes and
bodies. -/
def stubClient (list create start : HttpResponse) : HttpClient :=
  { Get := fun _ => Except.ok list
    Post := fun url _ _ =>
      if HasPrefix url "http://unix/containers/".toList then Except.ok create
      else Except.ok start }

/-- An environment around `stubClient`: a non-empty list body decodes to `containers` and a
non-empty create body to the exec instance `execID`, an empty body makes either decoder
fail with EOF as `json.Decoder.Decode` does, and `%q` puts its argument, taken to need no
escaping, between double quotes. -/
def stubEnv (containers : List Container) (execID : Str) (list create start : HttpResponse) :
    Env :=
  { client := fun _ => stubClient list create start
    decodeContainers := fun body =>
      if body = [] then Except.error "EOF".toList else Except.ok containers
    decodeCreateResp := fun body =>
      if body = [] then Except.error "EOF".toList else Except.ok execID
    quote := fun s => "\"".toList ++ s ++ "\"".toList
    Sscan := fun _ => (0, some "expected integer".toList)
    now := "20250101T120000".toList }

/-- The default of `dockerSock` (app.go 26). -/
def defaultDockerSock : Str := "/var/run/docker.sock".toList

/-- An answer with the given status code and an empty body. -/
def status (code : Int) : HttpResponse := { StatusCode := code, Body := [] }

/-- A container list as in the spec's example: one container with the names "/caddy" and
"/other". -/
def sampleContainers : List Container :=
  [{ ID := "abc123".toList, Names := ["/caddy".toList, "/other".toList] }]

/-- The JSON of `sampleContainers`, as the list call returns it. -/
def sampleListBody : Str :=
  "[\x7b\"Id\":\"abc123\",\"Names\":[\"/caddy\",\"/other\"]\x7d]".toList

/-- The JSON the create call returns for the exec instance `e1`. -/
def sampleCreateBody : Str := "\x7b\"Id\":\"e1\"\x7d".toList

/-- An answer of the list call with the given status code and the body `sampleListBody`. -/
def listed (code : Int) : HttpResponse := { StatusCode := code, Body := sampleListBody }

/-- An answer of the create call with the given status code and the body
`sampleCreateBody`. -/
def created (code : Int) : HttpResponse := { StatusCode := code, Body := sampleCreateBody }

/-! ## Message handler (`messageHandler`, app.go 57-114) -/

/-- The fields of `update.Message` the handler reads. -/
structure Message where
  ChatID : Int
  Text : Str

/-- The package-level variables of app.go 23-28. -/
structure Config where
  caddyFilePath : Str
  caddyContainer : Str
  dockerSock : Str
  allowedChatStr : Str

/-- What the handler does to the outside, in order. -/
inductive Event where
  /-- `send(b, ctx, chatID, text)` -/
  | send (chatID : Int) (text : Str)
  /-- A call of `reloadCaddyInContainer(sockPath, containerName)` -/
  | reload (sockPath containerName : Str)
  /-- `log.Printf` -/
  | log (text : Str)
  /-- A run-time panic (index out of range) -/
  | outOfRange
  deriving DecidableEq

/-- The allowed-chat filter of app.go 62-71: the log lines written and whether the
handler returns without answering. -/
def chatGate (cfg : Config) (env : Env) (chatID : Int) : List Event × Bool :=
  if cfg.allowedChatStr ≠ [] then
    let scanned := env.Sscan cfg.allowedChatStr
    let logs :=
      match scanned.2 with
      | some e => [Event.log ("invalid ALLOWED_CHAT_ID: ".toList ++ e)]
      | none => []
    (logs, decide (scanned.1 ≠ 0) && decide (chatID ≠ scanned.1))
  else ([], false)

/-- What app.go 79-89 makes of the fields of the message. -/
inductive Candidate where
  /-- `ipStr` was set -/
  | ip (ipStr : Str)
  /-- `/addip` without an argument -/
  | usage
  /-- `fields[0]` on an empty slice -/
  | outOfRange
  deriving DecidableEq

/-- Lines 79-89 of app.go: the candidate address taken from the fields. -/
def candidate : List Str → Candidate
  | [] => Candidate.outOfRange
  | f0 :: rest =>
    if HasPrefix f0 "/addip".toList then
      match rest with
      | [] => Candidate.usage
      | f1 :: _ => Candidate.ip f1
    else Candidate.ip f0

/-- The success message of app.go 113. -/
def successMessage : Str := "Caddy reload successful ✅".toList

/-- Lines 91-113 of app.go: validate, mutate, reload, answering on chat `chatID`. -/
def processIP (cfg : Config) (env : Env) (chatID : Int) (ipStr : Str) (fs : FileSystem) :
    FileSystem × List Event :=
  if !isValidIP ipStr then
    (fs, [Event.send chatID ("Invalid IP address: ".toList ++ env.quote ipStr)])
  else
    match addIPToCaddyfile cfg.caddyFilePath env.now ipStr fs with
    | (fs1, _, some err) =>
      (fs1, [Event.send chatID ("Failed to update Caddyfile: ".toList ++ err)])
    | (fs1, added, none) =>
      if !added then
        (fs1, [Event.send chatID ("IP ".toList ++ ipStr ++ " already present".toList)])
      else
        let announce :=
          Event.send chatID ("Added ".toList ++ ipStr ++ " to Caddyfile — reloading...".toList)
        let call := Event.reload cfg.dockerSock cfg.caddyContainer
        match reloadCaddyInContainer env cfg.dockerSock cfg.caddyContainer with
        | some err =>
          (fs1, [announce, call,
            Event.send chatID ("Added IP but reload failed: ".toList ++ err)])
        | none =>
          (fs1, [announce, call, Event.send chatID successMessage])

/-- `messageHandler` (app.go 57-114): the file system afterwards and what the handler did.
`update` is `update.Message`, `none` for `nil`. -/
def messageHandler (cfg : Config) (env : Env) (update : Option Message) (fs : FileSystem) :
    FileSystem × List Event :=
  match update with
  | none => (fs, [])
  | some msg =>
    let gate := chatGate cfg env msg.ChatID
    if gate.2 then (fs, gate.1)
    else
      let text := TrimSpace msg.Text
      if text = [] then
        (fs, gate.1 ++ [Event.send msg.ChatID "Send an IP address or `/addip <ip>`".toList])
      else
        match candidate (Fields text) with
        | Candidate.outOfRange => (fs, gate.1 ++ [Event.outOfRange])
        | Candidate.usage =>
          (fs, gate.1 ++ [Event.send msg.ChatID "Usage: /addip <IP address>".toList])
        | Candidate.ip ipStr =>
          let r := processIP cfg env msg.ChatID ipStr fs
          (r.1, gate.1 ++ r.2)

/-- The texts the handler sent, in order. -/
def sentTexts : List Event → List Str
  | [] => []
  | Event.send _ text :: es => text :: sentTexts es
  | Event.reload _ _ :: es => sentTexts es
  | Event.log _ :: es => sentTexts es
  | Event.outOfRange :: es => sentTexts es

/-- The last message the handler sent, if it sent one. -/
def finalMessage (events : List Event) : Option Str := (sentTexts events).getLast?

/-- The handler called `reloadCaddyInContainer`. -/
def reloadAttempted : List Event → Bool
  | [] => false
  | Event.reload _ _ :: _ => true
  | _ :: es => reloadAttempted es

/-- The package-level variables at their defaults, with no allowed-chat filter. -/
def defaultConfig : Config :=
  { caddyFilePath := defaultCaddyFilePath
    caddyContainer := "caddy".toList
    dockerSock := defaultDockerSock
    allowedChatStr := [] }

/-! ## Lemmas on the string helpers -/

theorem HasPrefix_iff (s p : Str) : HasPrefix s p = true ↔ p <+: s := by
  unfold HasPrefix
  exact List.isPrefixOf_iff_prefix

theorem Contains_iff (s sub : Str) : Contains s sub = true ↔ sub <:+: s := by
  induction s with
  | nil =>
    cases sub <;> simp [Contains]
  | cons c rest ih =>
    rw [Contains, Bool.or_eq_true, ih, HasPrefix_iff, List.infix_cons_iff]

theorem splitGo_single (c : Char) (s cur : Str) :
    splitGo [c] s cur 0 = List.splitOnP.go (· == c) s cur := by
  induction s generalizing cur with
  | nil => simp [splitGo, List.splitOnP.go]
  | cons x rest ih =>
    by_cases h : x = c
    · subst h
      simp [splitGo, List.splitOnP.go, HasPrefix, ih]
    · have h2 : ¬ c = x := fun e => h e.symm
      simp [splitGo, List.splitOnP.go, HasPrefix, ih, h, h2]

theorem Split_single (c : Char) (s : Str) : Split s [c] = s.splitOn c := by
  simp [Split, List.splitOn, List.splitOnP, splitGo_single]

theorem Split_ne_nil (c : Char) (s : Str) : Split s [c] ≠ [] := by
  rw [Split_single]
  exact List.splitOnP_ne_nil _ _

theorem not_mem_of_mem_splitOnP (p : Char → Bool) (s : Str) :
    ∀ l ∈ s.splitOnP p, ∀ x ∈ l, p x = false := by
  induction s with
  | nil => simp
  | cons a rest ih =>
    intro l hl x hx
    rw [List.splitOnP_cons] at hl
    by_cases hp : p a = true
    · rw [if_pos hp] at hl
      rcases List.mem_cons.1 hl with h | h
      · subst h; simp at hx
      · exact ih l h x hx
    · rw [if_neg hp] at hl
      cases hrest : List.splitOnP p rest with
      | nil => exact absurd hrest (List.splitOnP_ne_nil _ _)
      | cons hd tl =>
        rw [hrest] at hl ih
        simp only [List.modifyHead_cons, List.mem_cons] at hl
        rcases hl with h | h
        · subst h
          rcases List.mem_cons.1 hx with h' | h'
          · subst h'; simpa using hp
          · exact ih hd (List.mem_cons_self _ _) x h'
        · exact ih l (List.mem_cons_of_mem _ h) x hx

theorem not_mem_of_mem_Split (c : Char) (s l : Str) (hl : l ∈ Split s [c]) : c ∉ l := by
  rw [Split_single] at hl
  intro hc
  have := not_mem_of_mem_splitOnP (· == c) s l hl c hc
  simp at this

theorem infix_intercalate (sep : Str) (L : List Str) (l : Str) (hl : l ∈ L) :
    l <:+: sep.intercalate L := by
  induction L with
  | nil => simp at hl
  | cons a rest ih =>
    cases rest with
    | nil =>
      have : l = a := by simpa using hl
      subst this
      simp [List.intercalate]
    | cons b rest2 =>
      have hcons : sep.intercalate (a :: b :: rest2) = a ++ (sep ++ sep.intercalate (b :: rest2)) := by
        simp [List.intercalate]
      rw [hcons]
      rcases List.mem_cons.1 hl with h | h
      · subst h
        exact (List.prefix_append _ _).isInfix
      · exact (ih h).trans
          (((List.suffix_append sep _).trans (List.suffix_append a _)).isInfix)

theorem Join_Split (c : Char) (s : Str) : Join (Split s [c]) [c] = s := by
  rw [Split_single, Join]
  exact List.intercalate_splitOn s c

theorem infix_of_mem_Split (c : Char) (s l : Str) (hl : l ∈ Split s [c]) : l <:+: s := by
  have h := infix_intercalate [c] (Split s [c]) l hl
  have h2 := Join_Split c s
  rw [Join] at h2
  rw [h2] at h
  exact h

theorem Split_Join (c : Char) (L : List Str) (hL : L ≠ []) (hc : ∀ l ∈ L, c ∉ l) :
    Split (Join L [c]) [c] = L := by
  rw [Split_single, Join]
  exact List.splitOn_intercalate L c hc hL

theorem foldl_scanStep (newIP : Str) (lines : List Str) (st : ScanState) :
    lines.foldl (scanStep newIP) st =
      { out := st.out ++ insertAfterMarkers newIP lines,
        changed := st.changed || lines.any (fun l => Contains l marker),
        foundMarker := st.foundMarker || lines.any (fun l => Contains l marker) } := by
  induction lines generalizing st with
  | nil => simp [insertAfterMarkers]
  | cons l rest ih =>
    rw [List.foldl_cons, ih]
    by_cases h : Contains l marker = true
    · simp [scanStep, h, insertAfterMarkers]
    · simp [scanStep, h, insertAfterMarkers]

theorem scanLines_eq (newIP : Str) (lines : List Str) :
    scanLines newIP lines =
      { out := insertAfterMarkers newIP lines,
        changed := lines.any (fun l => Contains l marker),
        foundMarker := lines.any (fun l => Contains l marker) } := by
  simp [scanLines, foldl_scanStep]

/-! ## Lemmas on the mutator -/

theorem any_marker_eq_true_iff (data : Str) :
    (Split data "\n".toList).any (fun l => Contains l marker) = true ↔ 1 ≤ markerCount data := by
  unfold markerCount
  rw [Nat.succ_le_iff, List.countP_pos_iff, List.any_eq_true]

theorem any_marker_eq_false_iff (data : Str) :
    (Split data "\n".toList).any (fun l => Contains l marker) = false ↔ markerCount data = 0 := by
  rw [← Bool.not_eq_true, any_marker_eq_true_iff]
  omega

theorem backupPath_ne (caddyFilePath now : Str) : backupPath caddyFilePath now ≠ caddyFilePath := by
  intro h
  have := congrArg List.length h
  simp [backupPath] at this

theorem addIP_read_error (caddyFilePath now newIP e : Str) (fs : FileSystem)
    (hread : fs.ReadFile caddyFilePath = Except.error e) :
    addIPToCaddyfile caddyFilePath now newIP fs
      = (fs, false, some ("read caddyfile: ".toList ++ e)) := by
  unfold addIPToCaddyfile
  rw [hread]

theorem addIP_duplicate (caddyFilePath now newIP data : Str) (fs : FileSystem)
    (hread : fs.ReadFile caddyFilePath = Except.ok data)
    (hdup : Contains data (ruleText newIP) = true) :
    addIPToCaddyfile caddyFilePath now newIP fs = (fs, false, none) := by
  unfold addIPToCaddyfile
  rw [hread]
  simp only [hdup, if_true]

theorem addIP_no_marker (caddyFilePath now newIP data : Str) (fs : FileSystem)
    (hread : fs.ReadFile caddyFilePath = Except.ok data)
    (hdup : Contains data (ruleText newIP) = false)
    (hmark : markerCount data = 0) :
    addIPToCaddyfile caddyFilePath now newIP fs = (fs, false, some errNoMarker) := by
  have h := (any_marker_eq_false_iff data).2 hmark
  unfold addIPToCaddyfile
  rw [hread]
  simp only [hdup, scanLines_eq, h, Bool.not_false, if_true, Bool.false_eq_true, if_false]

/-- The content the mutator hands to the second `os.WriteFile`, once the backup is
written. -/
theorem addIP_written (caddyFilePath now newIP data : Str) (fs : FileSystem)
    (hread : fs.ReadFile caddyFilePath = Except.ok data)
    (hdup : Contains data (ruleText newIP) = false)
    (hmark : 1 ≤ markerCount data) :
    addIPToCaddyfile caddyFilePath now newIP fs
      = match fs.WriteFile (backupPath caddyFilePath now) data with
        | (fs1, some e) => (fs1, false, some ("write backup: ".toList ++ e))
        | (fs1, none) =>
          match fs1.WriteFile caddyFilePath
              (Join (insertAfterMarkers newIP (Split data "\n".toList)) "\n".toList) with
          | (fs2, some e) => (fs2, false, some ("write caddyfile: ".toList ++ e))
          | (fs2, none) => (fs2, true, none) := by
  have h := (any_marker_eq_true_iff data).2 hmark
  unfold addIPToCaddyfile
  rw [hread]
  simp only [hdup, scanLines_eq, h, Bool.not_true, Bool.false_eq_true, if_false]

theorem addIP_backup_failed (caddyFilePath now newIP data err : Str) (after : Except Str Str)
    (fs : FileSystem)
    (hread : fs.ReadFile caddyFilePath = Except.ok data)
    (hdup : Contains data (ruleText newIP) = false)
    (hmark : 1 ≤ markerCount data)
    (hbak : fs.writeResult (backupPath caddyFilePath now) data = WriteResult.failed err after) :
    addIPToCaddyfile caddyFilePath now newIP fs
      = (fs.set (backupPath caddyFilePath now) data after, false,
          some ("write backup: ".toList ++ err)) := by
  rw [addIP_written caddyFilePath now newIP data fs hread hdup hmark]
  simp only [FileSystem.WriteFile, hbak]

theorem addIP_success (caddyFilePath now newIP data : Str) (fs : FileSystem)
    (hread : fs.ReadFile caddyFilePath = Except.ok data)
    (hdup : Contains data (ruleText newIP) = false)
    (hmark : 1 ≤ markerCount data)
    (hbak : fs.writeResult (backupPath caddyFilePath now) data = WriteResult.ok)
    (hcfg : fs.writeResult caddyFilePath
      (Join (insertAfterMarkers newIP (Split data "\n".toList)) "\n".toList) = WriteResult.ok) :
    addIPToCaddyfile caddyFilePath now newIP fs
      = ((fs.set (backupPath caddyFilePath now) data (Except.ok data)).set caddyFilePath
            (Join (insertAfterMarkers newIP (Split data "\n".toList)) "\n".toList)
            (Except.ok (Join (insertAfterMarkers newIP (Split data "\n".toList)) "\n".toList)),
          true, none) := by
  rw [addIP_written caddyFilePath now newIP data fs hread hdup hmark]
  have h2 : (fs.set (backupPath caddyFilePath now) data (Except.ok data)).writeResult
      = fs.writeResult := rfl
  simp only [FileSystem.WriteFile, hbak, h2, hcfg]

theorem addIP_config_failed (caddyFilePath now newIP data err : Str) (after : Except Str Str)
    (fs : FileSystem)
    (hread : fs.ReadFile caddyFilePath = Except.ok data)
    (hdup : Contains data (ruleText newIP) = false)
    (hmark : 1 ≤ markerCount data)
    (hbak : fs.writeResult (backupPath caddyFilePath now) data = WriteResult.ok)
    (hcfg : fs.writeResult caddyFilePath
      (Join (insertAfterMarkers newIP (Split data "\n".toList)) "\n".toList)
        = WriteResult.failed err after) :
    addIPToCaddyfile caddyFilePath now newIP fs
      = ((fs.set (backupPath caddyFilePath now) data (Except.ok data)).set caddyFilePath
            (Join (insertAfterMarkers newIP (Split data "\n".toList)) "\n".toList) after,
          false, some ("write caddyfile: ".toList ++ err)) := by
  rw [addIP_written caddyFilePath now newIP data fs hread hdup hmark]
  have h2 : (fs.set (backupPath caddyFilePath now) data (Except.ok data)).writeResult
      = fs.writeResult := rfl
  simp only [FileSystem.WriteFile, hbak, h2, hcfg]

theorem length_insertAfterMarkers (newIP : Str) (lines : List Str) :
    (insertAfterMarkers newIP lines).length
      = lines.length + lines.countP (fun l => Contains l marker) := by
  induction lines with
  | nil => simp [insertAfterMarkers]
  | cons l rest ih =>
    unfold insertAfterMarkers at ih ⊢
    rw [List.flatMap_cons, List.length_append, ih]
    by_cases h : Contains l marker = true
    · simp [h]; omega
    · simp [h]; omega

theorem filter_insertAfterMarkers (newIP : Str) (lines : List Str)
    (h : ∀ l ∈ lines, l ≠ ruleLine newIP) :
    (insertAfterMarkers newIP lines).filter (fun l => decide (l ≠ ruleLine newIP)) = lines := by
  induction lines with
  | nil => simp [insertAfterMarkers]
  | cons l rest ih =>
    have hl : l ≠ ruleLine newIP := h l (List.mem_cons_self _ _)
    have hrest := ih (fun x hx => h x (List.mem_cons_of_mem _ hx))
    unfold insertAfterMarkers at hrest ⊢
    rw [List.flatMap_cons, List.filter_append, hrest]
    by_cases hm : Contains l marker = true
    · simp [hm, hl]
    · simp [hm, hl]

theorem mem_insertAfterMarkers (newIP : Str) (lines : List Str) (x : Str)
    (hx : x ∈ insertAfterMarkers newIP lines) : x ∈ lines ∨ x = ruleLine newIP := by
  unfold insertAfterMarkers at hx
  rw [List.mem_flatMap] at hx
  obtain ⟨l, hl, hxl⟩ := hx
  by_cases hm : Contains l marker = true
  · simp [hm] at hxl
    rcases hxl with h | h
    · left; rw [h]; exact hl
    · right; exact h
  · simp [hm] at hxl
    left; rw [hxl]; exact hl

theorem insertAfterMarkers_ne_nil (newIP : Str) (lines : List Str) (h : lines ≠ []) :
    insertAfterMarkers newIP lines ≠ [] := by
  intro hnil
  have := length_insertAfterMarkers newIP lines
  rw [hnil] at this
  cases lines with
  | nil => exact h rfl
  | cons a b => simp at this; omega

theorem newline_not_mem_ruleLine (newIP : Str) (h : '\n' ∉ newIP) : '\n' ∉ ruleLine newIP := by
  unfold ruleLine
  rw [List.mem_append]
  rintro (h1 | h1)
  · revert h1; decide
  · exact h h1

theorem ruleText_infix_ruleLine (newIP : Str) : ruleText newIP <:+: ruleLine newIP :=
  ⟨"\t\t\t".toList, [], by simp [ruleText, ruleLine]⟩

theorem line_ne_ruleLine (newIP data : Str) (hnew : Contains data (ruleText newIP) = false)
    (l : Str) (hl : l ∈ Split data "\n".toList) : l ≠ ruleLine newIP := by
  intro h
  have h1 : l <:+: data := infix_of_mem_Split '\n' data l hl
  have h2 : ruleText newIP <:+: data := by
    rw [h] at h1
    exact (ruleText_infix_ruleLine newIP).trans h1
  rw [← Contains_iff, hnew] at h2
  exact Bool.false_ne_true h2

theorem Split_Join_insertAfterMarkers (newIP data : Str) (hline : '\n' ∉ newIP) :
    Split (Join (insertAfterMarkers newIP (Split data "\n".toList)) "\n".toList) "\n".toList
      = insertAfterMarkers newIP (Split data "\n".toList) := by
  apply Split_Join '\n'
  · exact insertAfterMarkers_ne_nil _ _ (Split_ne_nil '\n' data)
  · intro l hl
    rcases mem_insertAfterMarkers newIP _ l hl with h | h
    · exact not_mem_of_mem_Split '\n' data l h
    · rw [h]; exact newline_not_mem_ruleLine newIP hline

/-! ## Lemmas on the validator -/

theorem mem_of_mem_Split (c : Char) (s l : Str) (hl : l ∈ Split s [c]) (x : Char) (hx : x ∈ l) :
    x ∈ s :=
  (infix_of_mem_Split c s l hl).subset hx

theorem mem_intercalate (sep : Str) (L : List Str) (x : Char) (hx : x ∈ sep.intercalate L) :
    x ∈ sep ∨ ∃ l ∈ L, x ∈ l := by
  induction L with
  | nil => simp [List.intercalate] at hx
  | cons a rest ih =>
    cases rest with
    | nil =>
      right
      exact ⟨a, List.mem_cons_self _ _, by simpa [List.intercalate] using hx⟩
    | cons b rest2 =>
      have hcons : sep.intercalate (a :: b :: rest2)
          = a ++ (sep ++ sep.intercalate (b :: rest2)) := by
        simp [List.intercalate]
      rw [hcons, List.mem_append, List.mem_append] at hx
      rcases hx with h | h | h
      · exact Or.inr ⟨a, List.mem_cons_self _ _, h⟩
      · exact Or.inl h
      · rcases ih h with h' | ⟨l, hl, hxl⟩
        · exact Or.inl h'
        · exact Or.inr ⟨l, List.mem_cons_of_mem _ hl, hxl⟩

theorem mem_Split_cases (c : Char) (s : Str) (x : Char) (hx : x ∈ s) :
    x = c ∨ ∃ l ∈ Split s [c], x ∈ l := by
  have h := Join_Split c s
  rw [Join] at h
  rw [← h] at hx
  rcases mem_intercalate [c] _ x hx with h1 | h1
  · left; simpa using h1
  · right; exact h1

theorem isIPv4Field_digits (f : Str) (h : isIPv4Field f = true) : ∀ x ∈ f, isDigit x = true := by
  unfold isIPv4Field at h
  simp only [Bool.and_eq_true, List.all_eq_true] at h
  exact h.1.1.2

theorem isDigit_addressChar (x : Char) (h : isDigit x = true) : isAddressChar x = true := by
  simp [isAddressChar, isHexDigit, h]

theorem isIPv4Literal_chars (s : Str) (h : isIPv4Literal s = true) :
    ∀ x ∈ s, isDigit x = true ∨ x = '.' := by
  unfold isIPv4Literal at h
  simp only [Bool.and_eq_true, List.all_eq_true] at h
  intro x hx
  have hsplit : Split s ".".toList = Split s ['.'] := rfl
  rcases mem_Split_cases '.' s x hx with h1 | ⟨l, hl, hxl⟩
  · exact Or.inr h1
  · exact Or.inl (isIPv4Field_digits l (h.2 l (hsplit ▸ hl)) x hxl)

theorem isHexField_chars (f : Str) (h : isHexField f = true) : ∀ x ∈ f, isHexDigit x = true := by
  unfold isHexField at h
  simp only [Bool.and_eq_true, List.all_eq_true] at h
  exact h.2

theorem countPieces_chars (v4 : Bool) (fs : List Str) (n : Nat)
    (h : countPieces v4 fs = some n) :
    ∀ f ∈ fs, ∀ x ∈ f, isHexDigit x = true ∨ x = '.' := by
  induction fs generalizing n with
  | nil => simp
  | cons f rest ih =>
    cases rest with
    | nil =>
      intro g hg x hx
      have hg' : g = f := by simpa using hg
      subst hg'
      unfold countPieces at h
      by_cases h1 : isHexField g = true
      · exact Or.inl (isHexField_chars g h1 x hx)
      · rw [if_neg h1] at h
        by_cases h2 : (v4 && isIPv4Literal g) = true
        · rw [Bool.and_eq_true] at h2
          rcases isIPv4Literal_chars g h2.2 x hx with h3 | h3
          · left; simp [isHexDigit, h3]
          · exact Or.inr h3
        · rw [if_neg h2] at h
          exact absurd h (by simp)
    | cons g rest2 =>
      unfold countPieces at h
      by_cases h1 : isHexField f = true
      · rw [if_pos h1] at h
        cases hrec : countPieces v4 (g :: rest2) with
        | none => rw [hrec] at h; exact absurd h (by simp)
        | some m =>
          intro k hk x hx
          rcases List.mem_cons.1 hk with h2 | h2
          · subst h2
            exact Or.inl (isHexField_chars k h1 x hx)
          · exact ih m hrec k h2 x hx
      · rw [if_neg h1] at h
        exact absurd h (by simp)

theorem hex_or_dot_addressChar (x : Char) (h : isHexDigit x = true ∨ x = '.') :
    isAddressChar x = true := by
  rcases h with h | h
  · simp [isAddressChar, h]
  · simp [isAddressChar, h]

theorem colonRun_chars (v4 : Bool) (s : Str) (n : Nat)
    (h : countPieces v4 (Split s ":".toList) = some n) : ∀ x ∈ s, isAddressChar x = true := by
  intro x hx
  have hsplit : Split s ":".toList = Split s [':'] := rfl
  rcases mem_Split_cases ':' s x hx with h1 | ⟨l, hl, hxl⟩
  · simp [isAddressChar, h1]
  · exact hex_or_dot_addressChar x (countPieces_chars v4 _ n h l (hsplit ▸ hl) x hxl)

theorem sidePieces_chars (v4 : Bool) (s : Str) (n : Nat) (h : sidePieces v4 s = some n) :
    ∀ x ∈ s, isAddressChar x = true := by
  unfold sidePieces at h
  by_cases h0 : s = []
  · subst h0; simp
  · rw [if_neg h0] at h
    exact colonRun_chars v4 s n h

theorem splitEllipsis_eq (s l r : Str) (h : splitEllipsis s = some (l, r)) :
    s = l ++ "::".toList ++ r := by
  induction s generalizing l with
  | nil => simp [splitEllipsis] at h
  | cons c rest ih =>
    unfold splitEllipsis at h
    by_cases hp : HasPrefix (c :: rest) "::".toList = true
    · rw [if_pos hp] at h
      have hl : l = [] := by simpa using (congrArg Prod.fst (Option.some.inj h)).symm
      have hr : r = rest.drop 1 := by simpa using (congrArg Prod.snd (Option.some.inj h)).symm
      subst hl hr
      rw [HasPrefix_iff] at hp
      obtain ⟨t, ht⟩ := hp
      have hc : c = ':' ∧ rest = ':' :: t := by
        simpa using ht.symm
      rw [hc.1, hc.2]
      rfl
    · rw [if_neg hp] at h
      cases hrec : splitEllipsis rest with
      | none => rw [hrec] at h; simp at h
      | some lr =>
        rw [hrec] at h
        obtain ⟨l0, r0⟩ := lr
        have hl : l = c :: l0 := by simpa using (congrArg Prod.fst (Option.some.inj h)).symm
        have hr : r = r0 := by simpa using (congrArg Prod.snd (Option.some.inj h)).symm
        subst hl hr
        rw [ih l0 hrec]
        rfl

theorem isIPv6Literal_chars (s : Str) (h : isIPv6Literal s = true) :
    ∀ x ∈ s, isAddressChar x = true := by
  unfold isIPv6Literal at h
  cases hs : splitEllipsis s with
  | none =>
    rw [hs] at h
    cases hc : countPieces true (Split s ":".toList) with
    | none => rw [hc] at h; simp at h
    | some n => exact colonRun_chars true s n hc
  | some lr =>
    obtain ⟨l, r⟩ := lr
    rw [hs] at h
    dsimp only at h
    cases hl : sidePieces false l with
    | none => rw [hl] at h; simp at h
    | some a =>
      cases hr : sidePieces true r with
      | none => rw [hl, hr] at h; simp at h
      | some b =>
        intro x hx
        rw [splitEllipsis_eq s l r hs, List.mem_append, List.mem_append] at hx
        rcases hx with (hx | hx) | hx
        · exact sidePieces_chars false l a hl x hx
        · have : x = ':' := by
            have h2 : x ∈ [':', ':'] := hx
            simpa using h2
          simp [isAddressChar, this]
        · exact sidePieces_chars true r b hr x hx

theorem isValidIP_iff (s : Str) :
    isValidIP s = true ↔ (isIPv4Literal s = true ∨ isIPv6Literal s = true) := by
  unfold isValidIP ParseIP
  by_cases h4 : isIPv4Literal s = true
  · simp [h4]
  · by_cases h6 : isIPv6Literal s = true
    · simp [h4, h6]
    · simp [h4, h6]

theorem isValidIP_chars (s : Str) (h : isValidIP s = true) : ∀ x ∈ s, isAddressChar x = true := by
  rcases (isValidIP_iff s).1 h with h4 | h6
  · intro x hx
    rcases isIPv4Literal_chars s h4 x hx with h1 | h1
    · exact isDigit_addressChar x h1
    · simp [isAddressChar, h1]
  · exact isIPv6Literal_chars s h6

theorem isAddressChar_ne (c : Char) (hc : isAddressChar c = false) (s : Str)
    (h : isValidIP s = true) : c ∉ s := by
  intro hmem
  rw [isValidIP_chars s h c hmem] at hc
  exact Bool.noConfusion hc

theorem isSpace_not_addressChar (c : Char) (h : isSpace c = true) : isAddressChar c = false := by
  have e1 : ∀ a b : Char, a ≤ b ↔ a.toNat ≤ b.toNat := fun a b => Iff.rfl
  have e2 : ∀ a b : Char, a = b ↔ a.toNat = b.toNat := fun a b =>
    ⟨fun h => by rw [h], fun h => Char.ext (UInt32.ext (by simpa [Char.toNat] using h))⟩
  simp only [isSpace, Bool.or_eq_true, Bool.and_eq_true, decide_eq_true_eq] at h
  simp only [isAddressChar, isHexDigit, isDigit, Bool.or_eq_false_iff, Bool.and_eq_false_iff,
    decide_eq_false_iff_not, beq_eq_false_iff_ne, ne_eq, e1, e2]
  have c0 : ('0' : Char).toNat = 48 := rfl
  have c9 : ('9' : Char).toNat = 57 := rfl
  have ca : ('a' : Char).toNat = 97 := rfl
  have cf : ('f' : Char).toNat = 102 := rfl
  have cA : ('A' : Char).toNat = 65 := rfl
  have cF : ('F' : Char).toNat = 70 := rfl
  have cd : ('.' : Char).toNat = 46 := rfl
  have cc : (':' : Char).toNat = 58 := rfl
  rw [c0, c9, ca, cf, cA, cF, cd, cc]
  omega

/-! ## The mutator: insertion, idempotence, duplicates, missing marker, backup -/

/-- C1: for every document (split on "\n") in which N >= 1 lines contain the marker
"# add here", and every address (a string `isValidIP` accepts, the only kind the handler
passes on) whose rule text is not already in the document, the content
`addIPToCaddyfile` writes to the configuration path, once the backup is written, has
exactly N more lines than the original: the line "\t\t\tnot remote_ip <address>" appears
immediately after each marker line, and deleting those N inserted lines gives back the
original document with every original line in its original order. -/
theorem addIPToCaddyfile_inserts_after_each_marker
    (caddyFilePath now newIP data : Str) (fs : FileSystem)
    (hread : fs.ReadFile caddyFilePath = Except.ok data)
    (hmark : 1 ≤ markerCount data)
    (hnew : Contains data (ruleText newIP) = false)
    (hvalid : isValidIP newIP = true)
    (hbak : fs.writeResult (backupPath caddyFilePath now) data = WriteResult.ok) :
    ∃ written : Str,
      (addIPToCaddyfile caddyFilePath now newIP fs).1.writes
        = fs.writes ++ [(backupPath caddyFilePath now, data), (caddyFilePath, written)] ∧
      (fs.writeResult caddyFilePath written = WriteResult.ok →
        (addIPToCaddyfile caddyFilePath now newIP fs).1.ReadFile caddyFilePath
            = Except.ok written ∧
          (addIPToCaddyfile caddyFilePath now newIP fs).2 = (true, none)) ∧
      Split written "\n".toList = insertAfterMarkers newIP (Split data "\n".toList) ∧
      (Split written "\n".toList).length = (Split data "\n".toList).length + markerCount data ∧
      (Split written "\n".toList).filter (fun l => decide (l ≠ ruleLine newIP))
        = Split data "\n".toList := by
  have hline : '\n' ∉ newIP := isAddressChar_ne '\n' (by decide) newIP hvalid
  refine ⟨Join (insertAfterMarkers newIP (Split data "\n".toList)) "\n".toList, ?_, ?_, ?_, ?_, ?_⟩
  · rw [addIP_written caddyFilePath now newIP data fs hread hnew hmark]
    simp only [FileSystem.WriteFile, hbak]
    cases hw : (fs.set (backupPath caddyFilePath now) data (Except.ok data)).writeResult
        caddyFilePath (Join (insertAfterMarkers newIP (Split data "\n".toList)) "\n".toList) with
    | ok => simp [FileSystem.set]
    | failed err after => simp [FileSystem.set]
  · intro hcfg
    rw [addIP_success caddyFilePath now newIP data fs hread hnew hmark hbak hcfg]
    simp [FileSystem.set, FileSystem.ReadFile]
  · exact Split_Join_insertAfterMarkers newIP data hline
  · rw [Split_Join_insertAfterMarkers newIP data hline, length_insertAfterMarkers]
    rfl
  · rw [Split_Join_insertAfterMarkers newIP data hline]
    exact filter_insertAfterMarkers newIP _ (line_ne_ruleLine newIP data hnew)

/-- C1 at the scenario document "line1\n# add here\nline2" and the address 10.0.0.5. -/
theorem addIPToCaddyfile_inserts_after_each_marker_witness :
    ∃ written : Str,
      (addIPToCaddyfile defaultCaddyFilePath sampleTime "10.0.0.5".toList
          (singleFile defaultCaddyFilePath scenarioDoc)).1.writes
        = (singleFile defaultCaddyFilePath scenarioDoc).writes ++
          [(backupPath defaultCaddyFilePath sampleTime, scenarioDoc),
            (defaultCaddyFilePath, written)] ∧
      ((singleFile defaultCaddyFilePath scenarioDoc).writeResult defaultCaddyFilePath written
          = WriteResult.ok →
        (addIPToCaddyfile defaultCaddyFilePath sampleTime "10.0.0.5".toList
            (singleFile defaultCaddyFilePath scenarioDoc)).1.ReadFile defaultCaddyFilePath
            = Except.ok written ∧
          (addIPToCaddyfile defaultCaddyFilePath sampleTime "10.0.0.5".toList
            (singleFile defaultCaddyFilePath scenarioDoc)).2 = (true, none)) ∧
      Split written "\n".toList
        = insertAfterMarkers "10.0.0.5".toList (Split scenarioDoc "\n".toList) ∧
      (Split written "\n".toList).length
        = (Split scenarioDoc "\n".toList).length + markerCount scenarioDoc ∧
      (Split written "\n".toList).filter (fun l => decide (l ≠ ruleLine "10.0.0.5".toList))
        = Split scenarioDoc "\n".toList :=
  addIPToCaddyfile_inserts_after_each_marker defaultCaddyFilePath sampleTime
    "10.0.0.5".toList scenarioDoc (singleFile defaultCaddyFilePath scenarioDoc)
    (by decide) (by decide) (by decide) (by decide) rfl

theorem ruleLine_mem_insertAfterMarkers (newIP : Str) (lines : List Str)
    (h : 1 ≤ lines.countP (fun l => Contains l marker)) :
    ruleLine newIP ∈ insertAfterMarkers newIP lines := by
  rw [Nat.succ_le_iff, List.countP_pos_iff] at h
  obtain ⟨l, hl, hm⟩ := h
  unfold insertAfterMarkers
  rw [List.mem_flatMap]
  exact ⟨l, hl, by simp [hm]⟩

theorem count_insertAfterMarkers (newIP : Str) (lines : List Str)
    (h : ∀ l ∈ lines, l ≠ ruleLine newIP) :
    (insertAfterMarkers newIP lines).count (ruleLine newIP)
      = lines.countP (fun l => Contains l marker) := by
  induction lines with
  | nil => simp [insertAfterMarkers]
  | cons l rest ih =>
    have hl : l ≠ ruleLine newIP := h l (List.mem_cons_self _ _)
    have hrest := ih (fun x hx => h x (List.mem_cons_of_mem _ hx))
    unfold insertAfterMarkers at hrest ⊢
    rw [List.flatMap_cons, List.count_append, hrest]
    by_cases hm : Contains l marker = true
    · simp [hm, hl, List.count_cons]; omega
    · simp [hm, hl, List.count_cons]

theorem countP_marker_insertAfterMarkers (newIP : Str) (lines : List Str)
    (h : Contains (ruleLine newIP) marker = false) :
    (insertAfterMarkers newIP lines).countP (fun l => Contains l marker)
      = lines.countP (fun l => Contains l marker) := by
  induction lines with
  | nil => simp [insertAfterMarkers]
  | cons l rest ih =>
    unfold insertAfterMarkers at ih ⊢
    rw [List.flatMap_cons, List.countP_append, ih]
    by_cases hm : Contains l marker = true
    · simp [hm, h, List.countP_cons]; omega
    · simp [hm, List.countP_cons]

theorem ruleLine_no_marker (newIP : Str) (hvalid : isValidIP newIP = true) :
    Contains (ruleLine newIP) marker = false := by
  rw [← Bool.not_eq_true, Contains_iff]
  intro h
  have hmem : '#' ∈ ruleLine newIP := h.subset (by decide)
  unfold ruleLine at hmem
  rw [List.mem_append] at hmem
  rcases hmem with h1 | h1
  · revert h1; decide
  · exact isAddressChar_ne '#' (by decide) newIP hvalid h1

theorem newline_not_mem_valid (newIP : Str) (hvalid : isValidIP newIP = true) : '\n' ∉ newIP :=
  isAddressChar_ne '\n' (by decide) newIP hvalid

theorem Contains_Join_insertAfterMarkers (newIP data : Str) (hmark : 1 ≤ markerCount data) :
    Contains (Join (insertAfterMarkers newIP (Split data "\n".toList)) "\n".toList)
      (ruleText newIP) = true := by
  rw [Contains_iff]
  exact (ruleText_infix_ruleLine newIP).trans
    (infix_intercalate _ _ _ (ruleLine_mem_insertAfterMarkers newIP _ hmark))

/-- Idempotence where the duplicate test of app.go 137 finds nothing: for every document
with at least one marker line in which the text "not remote_ip <address>" does not occur,
and every valid address, when the backup and the configuration file can be written, the
first call returns `inserted = true`; a second call with the same address on the result
returns `inserted = false` with no error and leaves the file system as the first call left
it; the document then has exactly as many rule lines for the address as the original has
marker lines, and as many marker lines as before. -/
theorem addIP_idempotent_when_rule_text_absent
    (caddyFilePath now later newIP data : Str) (fs : FileSystem)
    (hread : fs.ReadFile caddyFilePath = Except.ok data)
    (hmark : 1 ≤ markerCount data)
    (hnew : Contains data (ruleText newIP) = false)
    (hvalid : isValidIP newIP = true)
    (hbak : fs.writeResult (backupPath caddyFilePath now) data = WriteResult.ok)
    (hcfg : ∀ content, fs.writeResult caddyFilePath content = WriteResult.ok) :
    (addIPToCaddyfile caddyFilePath now newIP fs).2 = (true, none) ∧
      (addIPToCaddyfile caddyFilePath later newIP
          (addIPToCaddyfile caddyFilePath now newIP fs).1).2 = (false, none) ∧
      (addIPToCaddyfile caddyFilePath later newIP
          (addIPToCaddyfile caddyFilePath now newIP fs).1).1
        = (addIPToCaddyfile caddyFilePath now newIP fs).1 ∧
      (∃ doc : Str,
        (addIPToCaddyfile caddyFilePath now newIP fs).1.ReadFile caddyFilePath = Except.ok doc ∧
        (Split doc "\n".toList).count (ruleLine newIP) = markerCount data ∧
        markerCount doc = markerCount data) ∧
      (data = scenarioDoc → newIP = "10.0.0.5".toList →
        (addIPToCaddyfile caddyFilePath now newIP fs).1.ReadFile caddyFilePath
          = Except.ok "line1\n# add here\n\t\t\tnot remote_ip 10.0.0.5\nline2".toList) := by
  have hfirst := addIP_success caddyFilePath now newIP data fs hread hnew hmark hbak (hcfg _)
  have hline := newline_not_mem_valid newIP hvalid
  have hreadNew : (addIPToCaddyfile caddyFilePath now newIP fs).1.ReadFile caddyFilePath
      = Except.ok (Join (insertAfterMarkers newIP (Split data "\n".toList)) "\n".toList) := by
    rw [hfirst]
    simp [FileSystem.set, FileSystem.ReadFile]
  have hsecond := addIP_duplicate caddyFilePath later newIP _ _ hreadNew
    (Contains_Join_insertAfterMarkers newIP data hmark)
  refine ⟨by rw [hfirst], by rw [hsecond], by rw [hsecond], ⟨_, hreadNew, ?_, ?_⟩, ?_⟩
  · rw [Split_Join_insertAfterMarkers newIP data hline]
    exact count_insertAfterMarkers newIP _ (line_ne_ruleLine newIP data hnew)
  · unfold markerCount
    rw [Split_Join_insertAfterMarkers newIP data hline]
    exact countP_marker_insertAfterMarkers newIP _ (ruleLine_no_marker newIP hvalid)
  · intro hd hip
    rw [hreadNew, hd, hip]
    decide

/-- C2, evaluated at the document "# add here\n\t\t\tnot remote_ip 10.0.0.50" and the valid
address 10.0.0.5: the document has a marker line and no line of it is the rule for
10.0.0.5 (its only rule is the one for 10.0.0.50), yet the first call returns
`inserted = false` and leaves the document as it was, so the document has no rule line
for 10.0.0.5 although it has one marker line.  On the scenario document
"line1\n# add here\nline2" the two calls behave as the claim says. -/
theorem addIPToCaddyfile_first_call_refused_on_prefix_address :
    isValidIP "10.0.0.5".toList = true ∧
      markerCount "# add here\n\t\t\tnot remote_ip 10.0.0.50".toList = 1 ∧
      Split "# add here\n\t\t\tnot remote_ip 10.0.0.50".toList "\n".toList
        = ["# add here".toList, ruleLine "10.0.0.50".toList] ∧
      (Split "# add here\n\t\t\tnot remote_ip 10.0.0.50".toList "\n".toList).count
          (ruleLine "10.0.0.5".toList) = 0 ∧
      (addIPToCaddyfile defaultCaddyFilePath sampleTime "10.0.0.5".toList
          (singleFile defaultCaddyFilePath
            "# add here\n\t\t\tnot remote_ip 10.0.0.50".toList)).2 = (false, none) ∧
      (addIPToCaddyfile defaultCaddyFilePath sampleTime "10.0.0.5".toList
          (singleFile defaultCaddyFilePath
            "# add here\n\t\t\tnot remote_ip 10.0.0.50".toList)).1.ReadFile defaultCaddyFilePath
        = Except.ok "# add here\n\t\t\tnot remote_ip 10.0.0.50".toList ∧
      (addIPToCaddyfile defaultCaddyFilePath sampleTime "10.0.0.5".toList
          (singleFile defaultCaddyFilePath
            "# add here\n\t\t\tnot remote_ip 10.0.0.50".toList)).1.writes = [] ∧
      (addIPToCaddyfile defaultCaddyFilePath sampleTime "10.0.0.5".toList
          (singleFile defaultCaddyFilePath scenarioDoc)).2 = (true, none) ∧
      (addIPToCaddyfile defaultCaddyFilePath sampleTime "10.0.0.5".toList
          (singleFile defaultCaddyFilePath scenarioDoc)).1.ReadFile defaultCaddyFilePath
        = Except.ok "line1\n# add here\n\t\t\tnot remote_ip 10.0.0.5\nline2".toList ∧
      (addIPToCaddyfile defaultCaddyFilePath "20250101T120500".toList "10.0.0.5".toList
          (addIPToCaddyfile defaultCaddyFilePath sampleTime "10.0.0.5".toList
            (singleFile defaultCaddyFilePath scenarioDoc)).1).2 = (false, none) ∧
      (addIPToCaddyfile defaultCaddyFilePath "20250101T120500".toList "10.0.0.5".toList
          (addIPToCaddyfile defaultCaddyFilePath sampleTime "10.0.0.5".toList
            (singleFile defaultCaddyFilePath scenarioDoc)).1).1.ReadFile defaultCaddyFilePath
        = Except.ok "line1\n# add here\n\t\t\tnot remote_ip 10.0.0.5\nline2".toList := by
  decide

/-- C3, evaluated at the input the claim names: the document
"# add here\n\t\t\tnot remote_ip 10.0.0.50" holds a rule line for 10.0.0.50 only, 10.0.0.5 is a
valid address different from it and no line of the document is its rule line, yet
`addIPToCaddyfile` takes the no-op path for 10.0.0.5: it returns `(false, nil)` and writes
nothing, because the text "not remote_ip 10.0.0.5" occurs inside the line of 10.0.0.50; the
handler then answers "IP 10.0.0.5 already present". -/
theorem addIPToCaddyfile_prefix_address_is_duplicate :
    isValidIP "10.0.0.5".toList = true ∧
      isValidIP "10.0.0.50".toList = true ∧
      Split "# add here\n\t\t\tnot remote_ip 10.0.0.50".toList "\n".toList
        = ["# add here".toList, ruleLine "10.0.0.50".toList] ∧
      ruleLine "10.0.0.5".toList
        ∉ Split "# add here\n\t\t\tnot remote_ip 10.0.0.50".toList "\n".toList ∧
      addIPToCaddyfile defaultCaddyFilePath sampleTime "10.0.0.5".toList
          (singleFile defaultCaddyFilePath "# add here\n\t\t\tnot remote_ip 10.0.0.50".toList)
        = (singleFile defaultCaddyFilePath "# add here\n\t\t\tnot remote_ip 10.0.0.50".toList,
            false, none) ∧
      finalMessage
          (messageHandler defaultConfig
            (stubEnv sampleContainers "e1".toList (listed 200) (created 201) (status 204))
            (some { ChatID := 42, Text := "10.0.0.5".toList })
            (singleFile defaultCaddyFilePath
              "# add here\n\t\t\tnot remote_ip 10.0.0.50".toList)).2
        = some "IP 10.0.0.5 already present".toList :=
  ⟨by decide, by decide, by decide, by decide,
    addIP_duplicate defaultCaddyFilePath sampleTime "10.0.0.5".toList
      "# add here\n\t\t\tnot remote_ip 10.0.0.50".toList
      (singleFile defaultCaddyFilePath "# add here\n\t\t\tnot remote_ip 10.0.0.50".toList)
      (by decide) (by decide),
    by decide⟩

/-- C6, evaluated at the document "# add here" with a = 10.0.0.50 and b = 10.0.0.5 in the
order a, b: both addresses are valid and different, the document has a marker line and
contains neither rule text, the call for a returns `inserted = true`, but the call for b
on the result returns `inserted = false` and the final document has no rule line for b.
In the order b, a the second call does return `inserted = true`. -/
theorem addIPToCaddyfile_lost_update_on_prefix_address :
    isValidIP "10.0.0.50".toList = true ∧
      isValidIP "10.0.0.5".toList = true ∧
      markerCount "# add here".toList = 1 ∧
      Contains "# add here".toList (ruleText "10.0.0.50".toList) = false ∧
      Contains "# add here".toList (ruleText "10.0.0.5".toList) = false ∧
      (addIPToCaddyfile defaultCaddyFilePath sampleTime "10.0.0.50".toList
          (singleFile defaultCaddyFilePath "# add here".toList)).2 = (true, none) ∧
      (addIPToCaddyfile defaultCaddyFilePath "20250101T120500".toList "10.0.0.5".toList
          (addIPToCaddyfile defaultCaddyFilePath sampleTime "10.0.0.50".toList
            (singleFile defaultCaddyFilePath "# add here".toList)).1).2 = (false, none) ∧
      (addIPToCaddyfile defaultCaddyFilePath "20250101T120500".toList "10.0.0.5".toList
          (addIPToCaddyfile defaultCaddyFilePath sampleTime "10.0.0.50".toList
            (singleFile defaultCaddyFilePath "# add here".toList)).1).1.ReadFile
          defaultCaddyFilePath
        = Except.ok "# add here\n\t\t\tnot remote_ip 10.0.0.50".toList ∧
      ruleLine "10.0.0.5".toList
        ∉ Split "# add here\n\t\t\tnot remote_ip 10.0.0.50".toList "\n".toList ∧
      (addIPToCaddyfile defaultCaddyFilePath "20250101T120500".toList "10.0.0.50".toList
          (addIPToCaddyfile defaultCaddyFilePath sampleTime "10.0.0.5".toList
            (singleFile defaultCaddyFilePath "# add here".toList)).1).2 = (true, none) := by
  decide

/-- C4 (amended): for every address and every readable document in which no line contains
the marker "# add here", `addIPToCaddyfile` calls `os.WriteFile` for neither the
configuration file nor a backup and leaves the file system as it was; it returns the
marker-not-found error when the document does not already contain the rule text
"not remote_ip <address>" (the empty document never does), and `(false, nil)` when it
does. -/
theorem addIPToCaddyfile_missing_marker
    (caddyFilePath now newIP data : Str) (fs : FileSystem)
    (hread : fs.ReadFile caddyFilePath = Except.ok data)
    (hmark : markerCount data = 0) :
    (addIPToCaddyfile caddyFilePath now newIP fs).1 = fs ∧
      (Contains data (ruleText newIP) = false →
        (addIPToCaddyfile caddyFilePath now newIP fs).2 = (false, some errNoMarker)) ∧
      (Contains data (ruleText newIP) = true →
        (addIPToCaddyfile caddyFilePath now newIP fs).2 = (false, none)) ∧
      (data = [] → (addIPToCaddyfile caddyFilePath now newIP fs).2 = (false, some errNoMarker)) := by
  have hno : Contains data (ruleText newIP) = false →
      addIPToCaddyfile caddyFilePath now newIP fs = (fs, false, some errNoMarker) :=
    fun h => addIP_no_marker caddyFilePath now newIP data fs hread h hmark
  have hdup : Contains data (ruleText newIP) = true →
      addIPToCaddyfile caddyFilePath now newIP fs = (fs, false, none) :=
    fun h => addIP_duplicate caddyFilePath now newIP data fs hread h
  refine ⟨?_, fun h => by rw [hno h], fun h => by rw [hdup h], ?_⟩
  · cases h : Contains data (ruleText newIP) with
    | false => rw [hno h]
    | true => rw [hdup h]
  · intro he
    subst he
    rw [hno (by simp [Contains, ruleText])]

/-- The amended C4 at the document "line1\nline2" and at the empty document, with the
address 10.0.0.5. -/
theorem addIPToCaddyfile_missing_marker_witness :
    ((addIPToCaddyfile defaultCaddyFilePath sampleTime "10.0.0.5".toList
          (singleFile defaultCaddyFilePath "line1\nline2".toList)).1
        = singleFile defaultCaddyFilePath "line1\nline2".toList ∧
      (addIPToCaddyfile defaultCaddyFilePath sampleTime "10.0.0.5".toList
          (singleFile defaultCaddyFilePath "line1\nline2".toList)).2
        = (false, some errNoMarker)) ∧
    (addIPToCaddyfile defaultCaddyFilePath sampleTime "10.0.0.5".toList
        (singleFile defaultCaddyFilePath [])).2 = (false, some errNoMarker) ∧
    (addIPToCaddyfile defaultCaddyFilePath sampleTime "10.0.0.5".toList
        (singleFile defaultCaddyFilePath "\tnot remote_ip 10.0.0.5".toList)).2
      = (false, none) :=
  ⟨⟨(addIPToCaddyfile_missing_marker defaultCaddyFilePath sampleTime "10.0.0.5".toList
        "line1\nline2".toList (singleFile defaultCaddyFilePath "line1\nline2".toList)
        (by decide) (by decide)).1,
    (addIPToCaddyfile_missing_marker defaultCaddyFilePath sampleTime "10.0.0.5".toList
        "line1\nline2".toList (singleFile defaultCaddyFilePath "line1\nline2".toList)
        (by decide) (by decide)).2.1 (by decide)⟩,
   (addIPToCaddyfile_missing_marker defaultCaddyFilePath sampleTime "10.0.0.5".toList
        [] (singleFile defaultCaddyFilePath []) (by decide) (by decide)).2.2.2 rfl,
   (addIPToCaddyfile_missing_marker defaultCaddyFilePath sampleTime "10.0.0.5".toList
        "\tnot remote_ip 10.0.0.5".toList
        (singleFile defaultCaddyFilePath "\tnot remote_ip 10.0.0.5".toList)
        (by decide) (by decide)).2.2.1 (by decide)⟩

/-- C4 as stated fails on a document without marker that already holds the rule text: on
"\tnot remote_ip 10.0.0.5" with the address 10.0.0.5 the call returns `(false, nil)`, not
the marker-not-found error. -/
theorem addIPToCaddyfile_no_marker_but_duplicate :
    (singleFile defaultCaddyFilePath "\tnot remote_ip 10.0.0.5".toList).ReadFile
        defaultCaddyFilePath = Except.ok "\tnot remote_ip 10.0.0.5".toList ∧
      markerCount "\tnot remote_ip 10.0.0.5".toList = 0 ∧
      (addIPToCaddyfile defaultCaddyFilePath sampleTime "10.0.0.5".toList
          (singleFile defaultCaddyFilePath "\tnot remote_ip 10.0.0.5".toList)).2
        = (false, none) ∧
      (addIPToCaddyfile defaultCaddyFilePath sampleTime "10.0.0.5".toList
          (singleFile defaultCaddyFilePath "\tnot remote_ip 10.0.0.5".toList)).2.2
        ≠ some errNoMarker := by
  decide

/-- C5: over the explicit file system, whenever `addIPToCaddyfile` leaves the
configuration file reading differently than before, the call first wrote, successfully, the
backup `<path>.bak.<timestamp>` with exactly the document it had read and only then
called `os.WriteFile` on the configuration path, and the backup still holds that document
afterwards; and when the write of the backup fails, the call returns the
"write backup" error, makes no further write and leaves the configuration file as it
was. -/
theorem addIPToCaddyfile_backup_before_write
    (caddyFilePath now newIP : Str) (fs : FileSystem) :
    ((addIPToCaddyfile caddyFilePath now newIP fs).1.files caddyFilePath
          ≠ fs.files caddyFilePath →
        ∃ data newContent : Str,
          fs.files caddyFilePath = Except.ok data ∧
          fs.writeResult (backupPath caddyFilePath now) data = WriteResult.ok ∧
          (addIPToCaddyfile caddyFilePath now newIP fs).1.writes
            = fs.writes ++ [(backupPath caddyFilePath now, data), (caddyFilePath, newContent)] ∧
          (addIPToCaddyfile caddyFilePath now newIP fs).1.files (backupPath caddyFilePath now)
            = Except.ok data) ∧
      (∀ (data err : Str) (after : Except Str Str),
        fs.files caddyFilePath = Except.ok data →
        Contains data (ruleText newIP) = false →
        1 ≤ markerCount data →
        fs.writeResult (backupPath caddyFilePath now) data = WriteResult.failed err after →
        (addIPToCaddyfile caddyFilePath now newIP fs).2
            = (false, some ("write backup: ".toList ++ err)) ∧
          (addIPToCaddyfile caddyFilePath now newIP fs).1.files caddyFilePath
            = fs.files caddyFilePath ∧
          (addIPToCaddyfile caddyFilePath now newIP fs).1.writes
            = fs.writes ++ [(backupPath caddyFilePath now, data)]) := by
  have hne : caddyFilePath ≠ backupPath caddyFilePath now :=
    fun h => backupPath_ne caddyFilePath now h.symm
  constructor
  · intro hchg
    cases hread : fs.files caddyFilePath with
    | error e =>
      rw [addIP_read_error caddyFilePath now newIP e fs hread] at hchg
      exact absurd rfl hchg
    | ok data =>
      cases hdup : Contains data (ruleText newIP) with
      | true =>
        rw [addIP_duplicate caddyFilePath now newIP data fs hread hdup] at hchg
        exact absurd rfl hchg
      | false =>
        rcases Nat.eq_zero_or_pos (markerCount data) with hmark | hmark
        · rw [addIP_no_marker caddyFilePath now newIP data fs hread hdup hmark] at hchg
          exact absurd rfl hchg
        · cases hbak : fs.writeResult (backupPath caddyFilePath now) data with
          | failed err after =>
            rw [addIP_backup_failed caddyFilePath now newIP data err after fs hread hdup hmark
              hbak] at hchg
            simp [FileSystem.set, hne] at hchg
          | ok =>
            refine ⟨data, Join (insertAfterMarkers newIP (Split data "\n".toList)) "\n".toList,
              rfl, hbak, ?_, ?_⟩
            · cases hcfg : fs.writeResult caddyFilePath
                  (Join (insertAfterMarkers newIP (Split data "\n".toList)) "\n".toList) with
              | ok =>
                rw [addIP_success caddyFilePath now newIP data fs hread hdup hmark hbak hcfg]
                simp [FileSystem.set]
              | failed err after =>
                rw [addIP_config_failed caddyFilePath now newIP data err after fs hread hdup
                  hmark hbak hcfg]
                simp [FileSystem.set]
            · cases hcfg : fs.writeResult caddyFilePath
                  (Join (insertAfterMarkers newIP (Split data "\n".toList)) "\n".toList) with
              | ok =>
                rw [addIP_success caddyFilePath now newIP data fs hread hdup hmark hbak hcfg]
                simp [FileSystem.set, backupPath_ne]
              | failed err after =>
                rw [addIP_config_failed caddyFilePath now newIP data err after fs hread hdup
                  hmark hbak hcfg]
                simp [FileSystem.set, backupPath_ne]
  · intro data err after hread hdup hmark hbak
    rw [addIP_backup_failed caddyFilePath now newIP data err after fs hread hdup hmark hbak]
    simp [FileSystem.set, hne]

/-- C5 at the scenario document: a successful insertion of 10.0.0.5 leaves the backup
behind, and a denied backup write leaves the configuration file alone. -/
theorem addIPToCaddyfile_backup_before_write_witness :
    (∃ data newContent : Str,
      (singleFile defaultCaddyFilePath scenarioDoc).files defaultCaddyFilePath
          = Except.ok data ∧
      (singleFile defaultCaddyFilePath scenarioDoc).writeResult
          (backupPath defaultCaddyFilePath sampleTime) data = WriteResult.ok ∧
      (addIPToCaddyfile defaultCaddyFilePath sampleTime "10.0.0.5".toList
          (singleFile defaultCaddyFilePath scenarioDoc)).1.writes
        = (singleFile defaultCaddyFilePath scenarioDoc).writes ++
          [(backupPath defaultCaddyFilePath sampleTime, data),
            (defaultCaddyFilePath, newContent)] ∧
      (addIPToCaddyfile defaultCaddyFilePath sampleTime "10.0.0.5".toList
          (singleFile defaultCaddyFilePath scenarioDoc)).1.files
          (backupPath defaultCaddyFilePath sampleTime) = Except.ok data) ∧
    ((addIPToCaddyfile defaultCaddyFilePath sampleTime "10.0.0.5".toList
          (backupDenied defaultCaddyFilePath sampleTime scenarioDoc)).2
        = (false, some ("write backup: ".toList ++ "permission denied".toList)) ∧
      (addIPToCaddyfile defaultCaddyFilePath sampleTime "10.0.0.5".toList
          (backupDenied defaultCaddyFilePath sampleTime scenarioDoc)).1.files
          defaultCaddyFilePath
        = (backupDenied defaultCaddyFilePath sampleTime scenarioDoc).files
            defaultCaddyFilePath ∧
      (addIPToCaddyfile defaultCaddyFilePath sampleTime "10.0.0.5".toList
          (backupDenied defaultCaddyFilePath sampleTime scenarioDoc)).1.writes
        = (backupDenied defaultCaddyFilePath sampleTime scenarioDoc).writes ++
          [(backupPath defaultCaddyFilePath sampleTime, scenarioDoc)]) :=
  ⟨(addIPToCaddyfile_backup_before_write defaultCaddyFilePath sampleTime "10.0.0.5".toList
      (singleFile defaultCaddyFilePath scenarioDoc)).1 (by decide),
   (addIPToCaddyfile_backup_before_write defaultCaddyFilePath sampleTime "10.0.0.5".toList
      (backupDenied defaultCaddyFilePath sampleTime scenarioDoc)).2 scenarioDoc
      "permission denied".toList (Except.error "no such file or directory".toList)
      (by decide) (by decide) (by decide) (by decide)⟩

/-! ## The container exec client: resolution and status codes -/

theorem matchNames_eq (c : Container) (containerName containerID : Str) (names : List Str) :
    matchNames c containerName containerID names
      = if names.any (fun n => decide (TrimPrefix n "/".toList = containerName)) then c.ID
        else containerID := by
  induction names with
  | nil => rfl
  | cons n ns ih =>
    unfold matchNames
    rw [List.any_cons]
    by_cases h : TrimPrefix n "/".toList = containerName
    · rw [if_pos h]
      simp only [h, decide_True, Bool.true_or, if_true]
    · rw [if_neg h, ih]
      simp only [h, decide_False, Bool.false_or]

theorem findContainer_eq (containerName : Str) (containers : List Container) :
    findContainer containerName [] containers
      = ((containers.find? (fun c => hasName containerName c && decide (c.ID ≠ []))).map
          Container.ID).getD [] := by
  induction containers with
  | nil => rfl
  | cons c cs ih =>
    unfold findContainer
    rw [matchNames_eq]
    have e : c.Names.any (fun n => decide (TrimPrefix n "/".toList = containerName))
        = hasName containerName c := rfl
    rw [e, List.find?_cons]
    cases hn : hasName containerName c with
    | false =>
      simp only [Bool.false_eq_true, if_false, ne_eq, not_true_eq_false, Bool.false_and]
      exact ih
    | true =>
      by_cases hid : c.ID = []
      · simp only [if_true, ne_eq, hid, not_true_eq_false, if_false, decide_False,
          Bool.and_false]
        exact ih
      · simp only [if_true, ne_eq, hid, not_false_eq_true, decide_True, Bool.and_true,
          Option.map_some', Option.getD_some]

theorem resolveContainer_eq (containers : List Container) (containerName : Str) :
    resolveContainer containers containerName
      = ((containers.find? (fun c => hasName containerName c && decide (c.ID ≠ []))).map
          Container.ID).getD [] :=
  findContainer_eq containerName containers

theorem resolveContainer_ne_nil_iff (containers : List Container) (containerName : Str) :
    resolveContainer containers containerName ≠ [] ↔
      ∃ c ∈ containers, c.ID ≠ [] ∧ ∃ n ∈ c.Names, TrimPrefix n "/".toList = containerName := by
  rw [resolveContainer_eq]
  constructor
  · intro h
    cases hf : containers.find? (fun c => hasName containerName c && decide (c.ID ≠ [])) with
    | none => rw [hf] at h; exact absurd rfl h
    | some c =>
      have hp := List.find?_some hf
      have hm := List.mem_of_find?_eq_some hf
      simp only [Bool.and_eq_true, decide_eq_true_eq, hasName, List.any_eq_true] at hp
      exact ⟨c, hm, hp.2, hp.1⟩
  · rintro ⟨c, hc, hid, n, hn, hname⟩
    cases hf : containers.find? (fun c => hasName containerName c && decide (c.ID ≠ [])) with
    | none =>
      rw [List.find?_eq_none] at hf
      have := hf c hc
      simp only [Bool.and_eq_true, decide_eq_true_eq, hasName, List.any_eq_true] at this
      exact absurd ⟨⟨n, hn, hname⟩, hid⟩ this
    | some d =>
      have hp := List.find?_some hf
      simp only [Bool.and_eq_true, decide_eq_true_eq] at hp
      simpa using hp.2

theorem startExec_ne_errNotFound (env : Env) (client : HttpClient) (execID containerName : Str) :
    startExec client execID ≠ some (errNotFound env containerName) := by
  unfold startExec
  split
  · simp [errNotFound]
  · split <;> simp [errNotFound]

theorem createExec_ne_errNotFound (env : Env) (client : HttpClient)
    (containerID containerName : Str) :
    createExec env client containerID ≠ some (errNotFound env containerName) := by
  unfold createExec
  split
  · simp [errNotFound]
  · split
    · simp [errNotFound]
    · split
      · simp [errNotFound]
      · split
        · simp [errNotFound]
        · exact startExec_ne_errNotFound env client _ containerName

theorem reload_after_list (env : Env) (sockPath containerName : Str) (resp : HttpResponse)
    (containers : List Container)
    (hlist : (env.client sockPath).Get listURL = Except.ok resp)
    (hstatus : resp.StatusCode < 400)
    (hdecode : env.decodeContainers resp.Body = Except.ok containers) :
    reloadCaddyInContainer env sockPath containerName
      = if resolveContainer containers containerName = [] then
          some (errNotFound env containerName)
        else createExec env (env.client sockPath) (resolveContainer containers containerName) := by
  unfold reloadCaddyInContainer
  simp only [hlist, ge_iff_le, not_le.2 hstatus, if_false, hdecode]

/-- C7 (amended): once the container list is fetched and decoded, resolution in
`reloadCaddyInContainer` succeeds if and only if some container with a non-empty ID has a
name that equals the requested name after its leading "/" is stripped; it then selects the
ID of the first such container in list order and goes on to create the exec instance in
it; otherwise, and only then, the call fails with the error
`container <quoted name> not found`.  With the names ["/caddy", "/other"] on a container
with an ID, "caddy" resolves and "missing" does not. -/
theorem reloadCaddyInContainer_resolves_first_named_container
    (env : Env) (sockPath containerName : Str) (resp : HttpResponse)
    (containers : List Container)
    (hlist : (env.client sockPath).Get listURL = Except.ok resp)
    (hstatus : resp.StatusCode < 400)
    (hdecode : env.decodeContainers resp.Body = Except.ok containers) :
    (resolveContainer containers containerName ≠ [] ↔
        ∃ c ∈ containers, c.ID ≠ [] ∧
          ∃ n ∈ c.Names, TrimPrefix n "/".toList = containerName) ∧
      resolveContainer containers containerName
        = ((containers.find? (fun c => hasName containerName c && decide (c.ID ≠ []))).map
            Container.ID).getD [] ∧
      (resolveContainer containers containerName ≠ [] →
        reloadCaddyInContainer env sockPath containerName
          = createExec env (env.client sockPath) (resolveContainer containers containerName)) ∧
      (reloadCaddyInContainer env sockPath containerName = some (errNotFound env containerName) ↔
        resolveContainer containers containerName = []) ∧
      (∀ id : Str, id ≠ [] →
        resolveContainer [{ ID := id, Names := ["/caddy".toList, "/other".toList] }]
            "caddy".toList = id ∧
          resolveContainer [{ ID := id, Names := ["/caddy".toList, "/other".toList] }]
            "missing".toList = []) := by
  have hre := reload_after_list env sockPath containerName resp containers hlist hstatus hdecode
  refine ⟨resolveContainer_ne_nil_iff containers containerName,
    resolveContainer_eq containers containerName, ?_, ?_, ?_⟩
  · intro h
    rw [hre, if_neg h]
  · rw [hre]
    constructor
    · intro h
      by_contra hne
      rw [if_neg hne] at h
      exact createExec_ne_errNotFound env _ _ containerName h
    · intro h
      rw [if_pos h]
  · intro id hid
    constructor
    · have h1 : matchNames { ID := id, Names := ["/caddy".toList, "/other".toList] }
          "caddy".toList [] ["/caddy".toList, "/other".toList] = id := rfl
      simp only [resolveContainer, findContainer, h1, ne_eq, hid, not_false_eq_true, if_true]
    · have h1 : matchNames { ID := id, Names := ["/caddy".toList, "/other".toList] }
          "missing".toList [] ["/caddy".toList, "/other".toList] = [] := rfl
      simp only [resolveContainer, findContainer, h1, ne_eq, not_true_eq_false, if_false]

theorem startExec_none_iff (client : HttpClient) (execID : Str) :
    startExec client execID = none ↔
      ∃ startResp, client.Post (startURL execID) jsonType startBody
          = Except.ok startResp ∧ startResp.StatusCode < 400 := by
  unfold startExec
  cases h : client.Post (startURL execID) jsonType startBody with
  | error e => simp
  | ok startResp =>
    by_cases hs : startResp.StatusCode ≥ 400
    · simp only [hs, if_true, Except.ok.injEq, exists_eq_left']
      constructor
      · intro h'; exact absurd h' (by simp)
      · intro h'; omega
    · simp only [hs, if_false, Except.ok.injEq, exists_eq_left', true_iff]
      omega

theorem createExec_none_iff (env : Env) (client : HttpClient) (containerID : Str) :
    createExec env client containerID = none ↔
      ∃ execResp execID startResp,
        client.Post (execURL containerID) jsonType createExecBody
          = Except.ok execResp ∧ execResp.StatusCode < 400 ∧
        env.decodeCreateResp execResp.Body = Except.ok execID ∧ execID ≠ [] ∧
        client.Post (startURL execID) jsonType startBody
          = Except.ok startResp ∧ startResp.StatusCode < 400 := by
  unfold createExec
  cases h : client.Post (execURL containerID) jsonType createExecBody with
  | error e => simp
  | ok execResp =>
    by_cases hs : execResp.StatusCode ≥ 400
    · simp only [hs, if_true, Except.ok.injEq]
      constructor
      · intro h'; exact absurd h' (by simp)
      · rintro ⟨r, _, _, hr, hlt, _⟩
        subst hr
        omega
    · simp only [hs, if_false, Except.ok.injEq]
      cases hd : env.decodeCreateResp execResp.Body with
      | error e =>
        constructor
        · intro h'; exact absurd h' (by simp)
        · rintro ⟨r, id, _, hr, _, hdec, _⟩
          subst hr
          rw [hd] at hdec
          exact absurd hdec (by simp)
      | ok execID =>
        by_cases hid : execID = []
        · simp only [hid, if_true]
          constructor
          · intro h'; exact absurd h' (by simp)
          · rintro ⟨r, id, _, hr, _, hdec, hne, _⟩
            subst hr
            rw [hd] at hdec
            exact absurd (Except.ok.inj hdec).symm (by simpa [hid] using hne)
        · simp only [hid, if_false]
          rw [startExec_none_iff]
          constructor
          · rintro ⟨startResp, hp, hlt⟩
            exact ⟨execResp, execID, startResp, rfl, by omega, hd, hid, hp, hlt⟩
          · rintro ⟨r, id, startResp, hr, _, hdec, _, hp, hlt⟩
            subst hr
            rw [hd] at hdec
            have := Except.ok.inj hdec
            subst this
            exact ⟨startResp, hp, hlt⟩

theorem reload_none_iff (env : Env) (sockPath containerName : Str) :
    reloadCaddyInContainer env sockPath containerName = none ↔
      ∃ listResp containers,
        (env.client sockPath).Get listURL = Except.ok listResp ∧
        listResp.StatusCode < 400 ∧
        env.decodeContainers listResp.Body = Except.ok containers ∧
        resolveContainer containers containerName ≠ [] ∧
        createExec env (env.client sockPath) (resolveContainer containers containerName)
          = none := by
  constructor
  · intro h
    unfold reloadCaddyInContainer at h
    dsimp only at h
    cases hl : (env.client sockPath).Get listURL with
    | error e =>
      rw [hl] at h
      exact absurd h (by simp)
    | ok listResp =>
      rw [hl] at h
      by_cases hs : listResp.StatusCode ≥ 400
      · simp only [hs, if_true] at h
        exact absurd h (by simp)
      · simp only [hs, if_false] at h
        cases hd : env.decodeContainers listResp.Body with
        | error e =>
          rw [hd] at h
          exact absurd h (by simp)
        | ok containers =>
          rw [hd] at h
          by_cases hr : resolveContainer containers containerName = []
          · simp only [hr, if_true] at h
            exact absurd h (by simp)
          · simp only [hr, if_false] at h
            exact ⟨listResp, containers, rfl, by omega, hd, hr, h⟩
  · rintro ⟨listResp, containers, hl, hs, hd, hr, hc⟩
    rw [reload_after_list env sockPath containerName listResp containers hl hs hd, if_neg hr, hc]

/-- The amended C7 on the container list of the spec's example: "caddy" resolves to the
container carrying "/caddy", "missing" ends in the not-found error. -/
theorem reloadCaddyInContainer_resolves_first_named_container_witness :
    resolveContainer sampleContainers "caddy".toList = "abc123".toList ∧
      reloadCaddyInContainer (stubEnv sampleContainers "e1".toList (listed 200) (created 201)
          (status 200)) defaultDockerSock "caddy".toList
        = createExec (stubEnv sampleContainers "e1".toList (listed 200) (created 201) (status 200))
            ((stubEnv sampleContainers "e1".toList (listed 200) (created 201)
              (status 200)).client defaultDockerSock)
            (resolveContainer sampleContainers "caddy".toList) ∧
      reloadCaddyInContainer (stubEnv sampleContainers "e1".toList (listed 200) (created 201)
          (status 200)) defaultDockerSock "missing".toList
        = some "container \"missing\" not found".toList :=
  ⟨by decide,
    (reloadCaddyInContainer_resolves_first_named_container
      (stubEnv sampleContainers "e1".toList (listed 200) (created 201) (status 200))
      defaultDockerSock "caddy".toList (listed 200) sampleContainers rfl (by decide)
      (by decide)).2.2.1
      (by decide),
    ((reloadCaddyInContainer_resolves_first_named_container
      (stubEnv sampleContainers "e1".toList (listed 200) (created 201) (status 200))
      defaultDockerSock "missing".toList (listed 200) sampleContainers rfl (by decide)
      (by decide)).2.2.2.1).2 (by decide)⟩

/-- C7 as stated fails when the container carrying the name has an empty ID: with the
single container `{Id: "", Names: ["/caddy"]}` a name equals "caddy" once the "/" is
stripped, yet the call fails with the not-found error; and with a second container
`{Id: "abc123", Names: ["/caddy"]}` behind it the ID selected is the second one's, not the
first named container's. -/
theorem reloadCaddyInContainer_named_container_with_empty_id :
    (∃ c ∈ [({ ID := [], Names := ["/caddy".toList] } : Container)],
        ∃ n ∈ c.Names, TrimPrefix n "/".toList = "caddy".toList) ∧
      resolveContainer [{ ID := [], Names := ["/caddy".toList] }] "caddy".toList = [] ∧
      reloadCaddyInContainer
          (stubEnv [{ ID := [], Names := ["/caddy".toList] }] "e1".toList
            { StatusCode := 200, Body := "[\x7b\"Id\":\"\",\"Names\":[\"/caddy\"]\x7d]".toList }
            (created 201) (status 200)) defaultDockerSock "caddy".toList
        = some "container \"caddy\" not found".toList ∧
      resolveContainer
          [{ ID := [], Names := ["/caddy".toList] },
            { ID := "abc123".toList, Names := ["/caddy".toList] }] "caddy".toList
        = "abc123".toList := by
  decide

/-- C8 (amended): `reloadCaddyInContainer` treats a status code below 400 as success.  It
returns `nil` if and only if the list call, the create call and the start call were all
answered with a status below 400 (and the list and the exec ID could be decoded and
resolved); a status of 400 or more from the list call, the create call or the start call
makes the respective step return its "failed" error with the body. -/
theorem reloadCaddyInContainer_nil_iff_below_400 (env : Env) (sockPath containerName : Str) :
    (reloadCaddyInContainer env sockPath containerName = none ↔
        ∃ (listResp : HttpResponse) (containers : List Container) (execResp : HttpResponse)
          (execID : Str) (startResp : HttpResponse),
          (env.client sockPath).Get listURL = Except.ok listResp ∧
          listResp.StatusCode < 400 ∧
          env.decodeContainers listResp.Body = Except.ok containers ∧
          resolveContainer containers containerName ≠ [] ∧
          (env.client sockPath).Post (execURL (resolveContainer containers containerName))
              jsonType createExecBody = Except.ok execResp ∧
          execResp.StatusCode < 400 ∧
          env.decodeCreateResp execResp.Body = Except.ok execID ∧
          execID ≠ [] ∧
          (env.client sockPath).Post (startURL execID) jsonType startBody
              = Except.ok startResp ∧
          startResp.StatusCode < 400) ∧
      (∀ listResp : HttpResponse,
        (env.client sockPath).Get listURL = Except.ok listResp →
        400 ≤ listResp.StatusCode →
        reloadCaddyInContainer env sockPath containerName
          = some ("docker list containers failed: ".toList ++ listResp.Body)) ∧
      (∀ (containerID : Str) (execResp : HttpResponse),
        (env.client sockPath).Post (execURL containerID) jsonType createExecBody
            = Except.ok execResp →
        400 ≤ execResp.StatusCode →
        createExec env (env.client sockPath) containerID
          = some ("docker create exec failed: ".toList ++ execResp.Body)) ∧
      (∀ (execID : Str) (startResp : HttpResponse),
        (env.client sockPath).Post (startURL execID) jsonType startBody
            = Except.ok startResp →
        400 ≤ startResp.StatusCode →
        startExec (env.client sockPath) execID
          = some ("docker start exec failed: ".toList ++ startResp.Body)) := by
  refine ⟨?_, ?_, ?_, ?_⟩
  · rw [reload_none_iff]
    constructor
    · rintro ⟨listResp, containers, hl, hs, hd, hr, hc⟩
      obtain ⟨execResp, execID, startResp, h1, h2, h3, h4, h5, h6⟩ :=
        (createExec_none_iff env _ _).1 hc
      exact ⟨listResp, containers, execResp, execID, startResp, hl, hs, hd, hr, h1, h2, h3,
        h4, h5, h6⟩
    · rintro ⟨listResp, containers, execResp, execID, startResp, hl, hs, hd, hr, h1, h2, h3,
        h4, h5, h6⟩
      exact ⟨listResp, containers, hl, hs, hd, hr,
        (createExec_none_iff env _ _).2 ⟨execResp, execID, startResp, h1, h2, h3, h4, h5, h6⟩⟩
  · intro listResp hl hs
    unfold reloadCaddyInContainer
    dsimp only
    rw [hl]
    simp only [ge_iff_le, hs, if_true]
  · intro containerID execResp hp hs
    unfold createExec
    rw [hp]
    simp only [ge_iff_le, hs, if_true]
  · intro execID startResp hp hs
    unfold startExec
    rw [hp]
    simp only [ge_iff_le, hs, if_true]

/-- The amended C8 on a daemon answering 200, 201 and 204 (the start answer without body),
and on daemons answering 500 to the list, the create and the start call. -/
theorem reloadCaddyInContainer_nil_iff_below_400_witness :
    reloadCaddyInContainer
        (stubEnv sampleContainers "e1".toList (listed 200) (created 201) (status 204))
        defaultDockerSock "caddy".toList = none ∧
      reloadCaddyInContainer
        (stubEnv sampleContainers "e1".toList (listed 500) (created 201) (status 204))
        defaultDockerSock "caddy".toList
        = some ("docker list containers failed: ".toList ++ sampleListBody) ∧
      createExec (stubEnv sampleContainers "e1".toList (listed 200) (created 500) (status 204))
        ((stubEnv sampleContainers "e1".toList (listed 200) (created 500)
          (status 204)).client defaultDockerSock) "abc123".toList
        = some ("docker create exec failed: ".toList ++ sampleCreateBody) ∧
      startExec
        ((stubEnv sampleContainers "e1".toList (listed 200) (created 201)
          (status 500)).client defaultDockerSock) "e1".toList
        = some "docker start exec failed: ".toList :=
  ⟨(reloadCaddyInContainer_nil_iff_below_400
      (stubEnv sampleContainers "e1".toList (listed 200) (created 201) (status 204))
      defaultDockerSock "caddy".toList).1.2
      ⟨listed 200, sampleContainers, created 201, "e1".toList, status 204,
        rfl, by decide, by decide, by decide, rfl, by decide, by decide, by decide, rfl,
        by decide⟩,
    (reloadCaddyInContainer_nil_iff_below_400
      (stubEnv sampleContainers "e1".toList (listed 500) (created 201) (status 204))
      defaultDockerSock "caddy".toList).2.1 (listed 500) rfl (by decide),
    (reloadCaddyInContainer_nil_iff_below_400
      (stubEnv sampleContainers "e1".toList (listed 200) (created 500) (status 204))
      defaultDockerSock "caddy".toList).2.2.1 "abc123".toList (created 500) rfl (by decide),
    (reloadCaddyInContainer_nil_iff_below_400
      (stubEnv sampleContainers "e1".toList (listed 200) (created 201) (status 500))
      defaultDockerSock "caddy".toList).2.2.2 "e1".toList (status 500) rfl (by decide)⟩

/-- C8 as stated fails for a status between 300 and 399: a daemon that answers the list
call with 200, the create call with 201 and the start call with 304 (no body), which is
outside 200..299, makes `reloadCaddyInContainer` return `nil`; so does a 300 with a
decodable body from the list call or from the create call. -/
theorem reloadCaddyInContainer_nil_on_304 :
    ((stubEnv sampleContainers "e1".toList (listed 200) (created 201)
          (status 304)).client defaultDockerSock).Post (startURL "e1".toList) jsonType startBody
        = Except.ok (status 304) ∧
      ¬ (200 ≤ (status 304).StatusCode ∧ (status 304).StatusCode ≤ 299) ∧
      reloadCaddyInContainer
        (stubEnv sampleContainers "e1".toList (listed 200) (created 201) (status 304))
        defaultDockerSock "caddy".toList = none ∧
      reloadCaddyInContainer
        (stubEnv sampleContainers "e1".toList (listed 300) (created 201) (status 204))
        defaultDockerSock "caddy".toList = none ∧
      reloadCaddyInContainer
        (stubEnv sampleContainers "e1".toList (listed 200) (created 300) (status 204))
        defaultDockerSock "caddy".toList = none := by
  decide

/-! ## The validator -/

/-- C9: `isValidIP` is a total boolean function that returns true exactly for the strings
that are a standard-form IPv4 or IPv6 literal.  Every accepted string consists of
hexadecimal digits, dots and colons only, so a string with white space anywhere or with a
"/" (a CIDR) is rejected.  "192.168.1.1" and "::1" give true; "999.1.1.1", "not-an-ip", "",
"10.0.0.0/8" and addresses with surrounding white space give false. -/
theorem isValidIP_accepts_exactly_ip_literals :
    (∀ s : Str, isValidIP s = true ↔ (isIPv4Literal s = true ∨ isIPv6Literal s = true)) ∧
      (∀ s : Str, isValidIP s = true → ∀ c ∈ s, isAddressChar c = true) ∧
      (∀ s : Str, (∃ c ∈ s, isSpace c = true) → isValidIP s = false) ∧
      (∀ s : Str, '/' ∈ s → isValidIP s = false) ∧
      isValidIP "192.168.1.1".toList = true ∧
      isValidIP "::1".toList = true ∧
      isValidIP "999.1.1.1".toList = false ∧
      isValidIP "not-an-ip".toList = false ∧
      isValidIP [] = false ∧
      isValidIP "10.0.0.0/8".toList = false ∧
      isValidIP " 192.168.1.1".toList = false ∧
      isValidIP "192.168.1.1 ".toList = false ∧
      isValidIP "::1\n".toList = false := by
  refine ⟨isValidIP_iff, isValidIP_chars, ?_, ?_, by decide, by decide, by decide, by decide,
    by decide, by decide, by decide, by decide, by decide⟩
  · rintro s ⟨c, hc, hsp⟩
    rw [← Bool.not_eq_true]
    intro hv
    exact isAddressChar_ne c (isSpace_not_addressChar c hsp) s hv hc
  · intro s hc
    rw [← Bool.not_eq_true]
    intro hv
    exact isAddressChar_ne '/' (by decide) s hv hc

/-- C9 on the IPv4-mapped literal "::ffff:192.168.1.1", on a tab-terminated address and on
a CIDR. -/
theorem isValidIP_accepts_exactly_ip_literals_witness :
    isValidIP "::ffff:192.168.1.1".toList = true ∧
      isValidIP "192.168.1.1\t".toList = false ∧
      isValidIP "2001:db8::/32".toList = false :=
  ⟨(isValidIP_accepts_exactly_ip_literals.1 "::ffff:192.168.1.1".toList).2
      (Or.inr (by decide)),
    isValidIP_accepts_exactly_ip_literals.2.2.1 "192.168.1.1\t".toList
      ⟨'\t', by decide, by decide⟩,
    isValidIP_accepts_exactly_ip_literals.2.2.2.1 "2001:db8::/32".toList (by decide)⟩

/-! ## The message handler -/

theorem dropWhile_head_not (p : Char → Bool) (l : Str) (a : Char) (rest : Str)
    (h : l.dropWhile p = a :: rest) : p a = false := by
  induction l with
  | nil => simp at h
  | cons x xs ih =>
    rw [List.dropWhile_cons] at h
    by_cases hp : p x = true
    · rw [if_pos hp] at h
      exact ih h
    · rw [if_neg hp] at h
      have : x = a := (List.cons.inj h).1
      rw [← this]
      simpa using hp

theorem TrimSpace_has_nonspace (s : Str) (h : TrimSpace s ≠ []) :
    ∃ c ∈ TrimSpace s, isSpace c = false := by
  unfold TrimSpace at h ⊢
  cases hu : ((s.dropWhile isSpace).reverse.dropWhile isSpace) with
  | nil => rw [hu] at h; exact absurd rfl h
  | cons a rest =>
    exact ⟨a, by simp, dropWhile_head_not isSpace _ a rest hu⟩

theorem fieldsGo_ne_nil (s cur : Str) (h : (∃ c ∈ s, isSpace c = false) ∨ cur ≠ []) :
    fieldsGo s cur ≠ [] := by
  induction s generalizing cur with
  | nil =>
    rcases h with ⟨c, hc, _⟩ | h
    · simp at hc
    · simp [fieldsGo, h]
  | cons x xs ih =>
    unfold fieldsGo
    by_cases hx : isSpace x = true
    · rw [if_pos hx]
      by_cases hcur : cur = []
      · rw [if_pos hcur]
        apply ih
        rcases h with ⟨c, hc, hsp⟩ | h
        · rcases List.mem_cons.1 hc with h1 | h1
          · rw [h1, hx] at hsp; exact absurd hsp (by simp)
          · exact Or.inl ⟨c, h1, hsp⟩
        · exact absurd hcur h
      · rw [if_neg hcur]
        exact List.cons_ne_nil _ _
    · rw [if_neg hx]
      exact ih _ (Or.inr (List.cons_ne_nil _ _))

theorem Fields_TrimSpace_ne_nil (s : Str) (h : TrimSpace s ≠ []) : Fields (TrimSpace s) ≠ [] :=
  fieldsGo_ne_nil _ _ (Or.inl (TrimSpace_has_nonspace s h))

theorem candidate_ne_outOfRange (fields : List Str) (h : fields ≠ []) :
    candidate fields ≠ Candidate.outOfRange := by
  cases fields with
  | nil => exact absurd rfl h
  | cons f0 rest =>
    unfold candidate
    dsimp only
    by_cases hp : HasPrefix f0 "/addip".toList = true
    · rw [if_pos hp]
      cases rest <;> simp
    · rw [if_neg hp]
      simp

theorem sentTexts_append (a b : List Event) : sentTexts (a ++ b) = sentTexts a ++ sentTexts b := by
  induction a with
  | nil => rfl
  | cons e es ih => cases e <;> simp [sentTexts, ih]

theorem reloadAttempted_append (a b : List Event) :
    reloadAttempted (a ++ b) = (reloadAttempted a || reloadAttempted b) := by
  induction a with
  | nil => rfl
  | cons e es ih => cases e <;> simp [reloadAttempted, ih]

theorem chatGate_logs (cfg : Config) (env : Env) (chatID : Int) :
    sentTexts (chatGate cfg env chatID).1 = [] ∧
      reloadAttempted (chatGate cfg env chatID).1 = false := by
  unfold chatGate
  by_cases h : cfg.allowedChatStr ≠ []
  · rw [if_pos h]
    dsimp only
    cases (env.Sscan cfg.allowedChatStr).2 <;> exact ⟨rfl, rfl⟩
  · rw [if_neg h]
    exact ⟨rfl, rfl⟩

theorem chatGate_logs_only (cfg : Config) (env : Env) (chatID : Int) :
    Event.outOfRange ∉ (chatGate cfg env chatID).1 := by
  unfold chatGate
  by_cases h : cfg.allowedChatStr ≠ []
  · rw [if_pos h]
    dsimp only
    cases (env.Sscan cfg.allowedChatStr).2 <;> simp
  · rw [if_neg h]
    simp

theorem messageHandler_blank (cfg : Config) (env : Env) (msg : Message) (fs : FileSystem)
    (hallowed : (chatGate cfg env msg.ChatID).2 = false)
    (hblank : TrimSpace msg.Text = []) :
    messageHandler cfg env (some msg) fs
      = (fs, (chatGate cfg env msg.ChatID).1 ++
          [Event.send msg.ChatID "Send an IP address or `/addip <ip>`".toList]) := by
  unfold messageHandler
  simp only [hallowed, Bool.false_eq_true, if_false, hblank, if_true]

theorem finalMessage_gate (cfg : Config) (env : Env) (chatID : Int) (es : List Event) :
    finalMessage ((chatGate cfg env chatID).1 ++ es) = finalMessage es := by
  unfold finalMessage
  rw [sentTexts_append, (chatGate_logs cfg env chatID).1, List.nil_append]

theorem reloadAttempted_gate (cfg : Config) (env : Env) (chatID : Int) (es : List Event) :
    reloadAttempted ((chatGate cfg env chatID).1 ++ es) = reloadAttempted es := by
  rw [reloadAttempted_append, (chatGate_logs cfg env chatID).2, Bool.false_or]

theorem messageHandler_allowed (cfg : Config) (env : Env) (msg : Message) (fs : FileSystem)
    (hallowed : (chatGate cfg env msg.ChatID).2 = false)
    (hnonempty : TrimSpace msg.Text ≠ []) :
    messageHandler cfg env (some msg) fs
      = match candidate (Fields (TrimSpace msg.Text)) with
        | Candidate.outOfRange => (fs, (chatGate cfg env msg.ChatID).1 ++ [Event.outOfRange])
        | Candidate.usage =>
          (fs, (chatGate cfg env msg.ChatID).1 ++
            [Event.send msg.ChatID "Usage: /addip <IP address>".toList])
        | Candidate.ip ipStr =>
          ((processIP cfg env msg.ChatID ipStr fs).1,
            (chatGate cfg env msg.ChatID).1 ++ (processIP cfg env msg.ChatID ipStr fs).2) := by
  unfold messageHandler
  simp only [hallowed, Bool.false_eq_true, if_false, hnonempty]

/-- The five ways through lines 91-113 of app.go. -/
theorem processIP_cases (cfg : Config) (env : Env) (chatID : Int) (ipStr : Str)
    (fs : FileSystem) :
    (isValidIP ipStr = false ∧
        (processIP cfg env chatID ipStr fs).2
          = [Event.send chatID ("Invalid IP address: ".toList ++ env.quote ipStr)]) ∨
      (isValidIP ipStr = true ∧
        ∃ err, (addIPToCaddyfile cfg.caddyFilePath env.now ipStr fs).2.2 = some err ∧
          (processIP cfg env chatID ipStr fs).2
            = [Event.send chatID ("Failed to update Caddyfile: ".toList ++ err)]) ∨
      (isValidIP ipStr = true ∧
        (addIPToCaddyfile cfg.caddyFilePath env.now ipStr fs).2 = (false, none) ∧
        (processIP cfg env chatID ipStr fs).2
          = [Event.send chatID ("IP ".toList ++ ipStr ++ " already present".toList)]) ∨
      (isValidIP ipStr = true ∧
        (addIPToCaddyfile cfg.caddyFilePath env.now ipStr fs).2 = (true, none) ∧
        ∃ err, reloadCaddyInContainer env cfg.dockerSock cfg.caddyContainer = some err ∧
          (processIP cfg env chatID ipStr fs).2
            = [Event.send chatID
                ("Added ".toList ++ ipStr ++ " to Caddyfile — reloading...".toList),
              Event.reload cfg.dockerSock cfg.caddyContainer,
              Event.send chatID ("Added IP but reload failed: ".toList ++ err)]) ∨
      (isValidIP ipStr = true ∧
        (addIPToCaddyfile cfg.caddyFilePath env.now ipStr fs).2 = (true, none) ∧
        reloadCaddyInContainer env cfg.dockerSock cfg.caddyContainer = none ∧
        (processIP cfg env chatID ipStr fs).2
          = [Event.send chatID
              ("Added ".toList ++ ipStr ++ " to Caddyfile — reloading...".toList),
            Event.reload cfg.dockerSock cfg.caddyContainer,
            Event.send chatID successMessage]) := by
  unfold processIP
  cases hv : isValidIP ipStr with
  | false => exact Or.inl ⟨rfl, rfl⟩
  | true =>
    right
    simp only [Bool.not_true, Bool.false_eq_true, if_false, true_and]
    rcases hadd : addIPToCaddyfile cfg.caddyFilePath env.now ipStr fs with ⟨fs1, added, err⟩
    cases err with
    | some e => exact Or.inl ⟨e, rfl, rfl⟩
    | none =>
      right
      cases added with
      | false => exact Or.inl ⟨rfl, rfl⟩
      | true =>
        right
        simp only [Bool.not_true, Bool.false_eq_true, if_false, true_and]
        cases hre : reloadCaddyInContainer env cfg.dockerSock cfg.caddyContainer with
        | some e => exact Or.inl ⟨e, rfl, rfl⟩
        | none => exact Or.inr ⟨rfl, rfl⟩

/-- C10: orchestration in `messageHandler`.  For every message from an allowed chat, empty
or not, the handler never indexes out of range, and it calls `reloadCaddyInContainer` if
and only if the message yields a candidate address that is valid and for which
`addIPToCaddyfile` returned `inserted = true` with no error.  For a candidate address: an
invalid one ends with the "Invalid IP address" message; a mutator error ends with
"Failed to update Caddyfile: <error>"; `inserted = false` ends with
"IP <address> already present"; a reload error ends with
"Added IP but reload failed: <error>"; and the final message is the success message when,
and only when, both steps succeeded. -/
theorem messageHandler_orchestration
    (cfg : Config) (env : Env) (msg : Message) (fs : FileSystem)
    (hallowed : (chatGate cfg env msg.ChatID).2 = false) :
    Event.outOfRange ∉ (messageHandler cfg env (some msg) fs).2 ∧
      (reloadAttempted (messageHandler cfg env (some msg) fs).2 = true ↔
        ∃ ipStr, candidate (Fields (TrimSpace msg.Text)) = Candidate.ip ipStr ∧
          isValidIP ipStr = true ∧
          (addIPToCaddyfile cfg.caddyFilePath env.now ipStr fs).2 = (true, none)) ∧
      (∀ ipStr, candidate (Fields (TrimSpace msg.Text)) = Candidate.ip ipStr →
        (isValidIP ipStr = false →
          finalMessage (messageHandler cfg env (some msg) fs).2
            = some ("Invalid IP address: ".toList ++ env.quote ipStr)) ∧
        (isValidIP ipStr = true →
          (∀ err, (addIPToCaddyfile cfg.caddyFilePath env.now ipStr fs).2.2 = some err →
            finalMessage (messageHandler cfg env (some msg) fs).2
              = some ("Failed to update Caddyfile: ".toList ++ err)) ∧
          ((addIPToCaddyfile cfg.caddyFilePath env.now ipStr fs).2 = (false, none) →
            finalMessage (messageHandler cfg env (some msg) fs).2
              = some ("IP ".toList ++ ipStr ++ " already present".toList)) ∧
          ((addIPToCaddyfile cfg.caddyFilePath env.now ipStr fs).2 = (true, none) →
            (∀ err, reloadCaddyInContainer env cfg.dockerSock cfg.caddyContainer = some err →
              finalMessage (messageHandler cfg env (some msg) fs).2
                = some ("Added IP but reload failed: ".toList ++ err)) ∧
            (reloadCaddyInContainer env cfg.dockerSock cfg.caddyContainer = none →
              finalMessage (messageHandler cfg env (some msg) fs).2
                = some successMessage)))) ∧
      (finalMessage (messageHandler cfg env (some msg) fs).2 = some successMessage →
        ∃ ipStr, candidate (Fields (TrimSpace msg.Text)) = Candidate.ip ipStr ∧
          isValidIP ipStr = true ∧
          (addIPToCaddyfile cfg.caddyFilePath env.now ipStr fs).2 = (true, none) ∧
          reloadCaddyInContainer env cfg.dockerSock cfg.caddyContainer = none) := by
  have hgate := chatGate_logs_only cfg env msg.ChatID
  by_cases hnonempty : TrimSpace msg.Text = []
  · rw [messageHandler_blank cfg env msg fs hallowed hnonempty]
    dsimp only
    rw [reloadAttempted_gate, finalMessage_gate, hnonempty]
    have hc : candidate (Fields []) = Candidate.outOfRange := rfl
    rw [hc]
    refine ⟨?_, ?_, ?_, ?_⟩
    · simp [hgate]
    · simp [reloadAttempted]
    · intro ipStr h
      exact absurd h (by simp)
    · intro h
      simp [finalMessage, sentTexts, successMessage] at h
  have hrange := candidate_ne_outOfRange _ (Fields_TrimSpace_ne_nil msg.Text hnonempty)
  have hmh := messageHandler_allowed cfg env msg fs hallowed hnonempty
  cases hc : candidate (Fields (TrimSpace msg.Text)) with
  | outOfRange => exact absurd hc hrange
  | usage =>
    rw [hc] at hmh
    rw [hmh]
    dsimp only
    rw [reloadAttempted_gate, finalMessage_gate]
    refine ⟨?_, ?_, ?_, ?_⟩
    · simp [hgate]
    · simp [reloadAttempted]
    · intro ipStr h
      exact absurd h (by simp)
    · intro h
      simp [finalMessage, sentTexts, successMessage] at h
  | ip ipStr =>
    rw [hc] at hmh
    rw [hmh]
    dsimp only
    rw [reloadAttempted_gate, finalMessage_gate]
    have inj : ∀ x, Candidate.ip ipStr = Candidate.ip x → x = ipStr :=
      fun x h => (Candidate.ip.inj h).symm
    rcases processIP_cases cfg env msg.ChatID ipStr fs with
      ⟨hv, hev⟩ | ⟨hv, e, hadd, hev⟩ | ⟨hv, hadd, hev⟩ | ⟨hv, hadd, e, hre, hev⟩ |
      ⟨hv, hadd, hre, hev⟩
    · rw [hev]
      refine ⟨by simp [hgate], ?_, ?_, ?_⟩
      · constructor
        · intro h; simp [reloadAttempted] at h
        · rintro ⟨x, hx, hvx, _⟩
          rw [inj x hx, hv] at hvx
          exact absurd hvx (by simp)
      · intro x hx
        rw [inj x hx]
        refine ⟨fun _ => rfl, fun h => ?_⟩
        rw [hv] at h
        exact absurd h (by simp)
      · intro h
        simp [finalMessage, sentTexts, successMessage] at h
    · rw [hev]
      refine ⟨by simp [hgate], ?_, ?_, ?_⟩
      · constructor
        · intro h; simp [reloadAttempted] at h
        · rintro ⟨x, hx, _, hax⟩
          rw [inj x hx] at hax
          rw [hax] at hadd
          exact absurd hadd (by simp)
      · intro x hx
        rw [inj x hx]
        refine ⟨fun h => ?_, fun _ => ⟨?_, ?_, ?_⟩⟩
        · rw [hv] at h; exact absurd h (by simp)
        · intro err herr
          rw [hadd] at herr
          rw [Option.some.inj herr]
          rfl
        · intro h
          rw [h] at hadd
          exact absurd hadd (by simp)
        · intro h
          rw [h] at hadd
          exact absurd hadd (by simp)
      · intro h
        simp [finalMessage, sentTexts, successMessage] at h
    · rw [hev]
      refine ⟨by simp [hgate], ?_, ?_, ?_⟩
      · constructor
        · intro h; simp [reloadAttempted] at h
        · rintro ⟨x, hx, _, hax⟩
          rw [inj x hx, hadd] at hax
          exact absurd hax (by simp)
      · intro x hx
        rw [inj x hx]
        refine ⟨fun h => ?_, fun _ => ⟨?_, ?_, ?_⟩⟩
        · rw [hv] at h; exact absurd h (by simp)
        · intro err herr
          rw [hadd] at herr
          exact absurd herr (by simp)
        · intro _
          rfl
        · intro h
          rw [hadd] at h
          exact absurd h (by simp)
      · intro h
        simp [finalMessage, sentTexts, successMessage] at h
    · rw [hev]
      refine ⟨by simp [hgate], ?_, ?_, ?_⟩
      · constructor
        · intro _
          exact ⟨ipStr, rfl, hv, hadd⟩
        · intro _
          rfl
      · intro x hx
        rw [inj x hx]
        refine ⟨fun h => ?_, fun _ => ⟨?_, ?_, ?_⟩⟩
        · rw [hv] at h; exact absurd h (by simp)
        · intro err herr
          rw [hadd] at herr
          exact absurd herr (by simp)
        · intro h
          rw [hadd] at h
          exact absurd h (by simp)
        · intro _
          refine ⟨?_, ?_⟩
          · intro err herr
            rw [hre] at herr
            rw [Option.some.inj herr]
            rfl
          · intro h
            rw [hre] at h
            exact absurd h (by simp)
      · intro h
        simp [finalMessage, sentTexts, successMessage] at h
    · rw [hev]
      refine ⟨by simp [hgate], ?_, ?_, ?_⟩
      · constructor
        · intro _
          exact ⟨ipStr, rfl, hv, hadd⟩
        · intro _
          rfl
      · intro x hx
        rw [inj x hx]
        refine ⟨fun h => ?_, fun _ => ⟨?_, ?_, ?_⟩⟩
        · rw [hv] at h; exact absurd h (by simp)
        · intro err herr
          rw [hadd] at herr
          exact absurd herr (by simp)
        · intro h
          rw [hadd] at h
          exact absurd h (by simp)
        · intro _
          refine ⟨?_, ?_⟩
          · intro err herr
            rw [hre] at herr
            exact absurd herr (by simp)
          · intro _
            rfl
      · intro _
        exact ⟨ipStr, rfl, hv, hadd, hre⟩

/-- C10 on the message "/addip 10.0.0.5" over the scenario document and a daemon that
answers 200, 201, 204: the reload is attempted and the final message is the success
message; on "/addip 999.1.1.1" the final message is the rejection. -/
theorem messageHandler_orchestration_witness :
    reloadAttempted
        (messageHandler defaultConfig
          (stubEnv sampleContainers "e1".toList (listed 200) (created 201) (status 204))
          (some { ChatID := 42, Text := " /addip 10.0.0.5\n".toList })
          (singleFile defaultCaddyFilePath scenarioDoc)).2 = true ∧
      finalMessage
        (messageHandler defaultConfig
          (stubEnv sampleContainers "e1".toList (listed 200) (created 201) (status 204))
          (some { ChatID := 42, Text := " /addip 10.0.0.5\n".toList })
          (singleFile defaultCaddyFilePath scenarioDoc)).2 = some successMessage ∧
      finalMessage
        (messageHandler defaultConfig
          (stubEnv sampleContainers "e1".toList (listed 200) (created 201) (status 204))
          (some { ChatID := 42, Text := "/addip 999.1.1.1".toList })
          (singleFile defaultCaddyFilePath scenarioDoc)).2
        = some "Invalid IP address: \"999.1.1.1\"".toList :=
  ⟨(messageHandler_orchestration defaultConfig
      (stubEnv sampleContainers "e1".toList (listed 200) (created 201) (status 204))
      { ChatID := 42, Text := " /addip 10.0.0.5\n".toList }
      (singleFile defaultCaddyFilePath scenarioDoc) (by decide)).2.1.2
      ⟨"10.0.0.5".toList, by decide, by decide, by decide⟩,
    ((((messageHandler_orchestration defaultConfig
      (stubEnv sampleContainers "e1".toList (listed 200) (created 201) (status 204))
      { ChatID := 42, Text := " /addip 10.0.0.5\n".toList }
      (singleFile defaultCaddyFilePath scenarioDoc) (by decide)).2.2.1
      "10.0.0.5".toList (by decide)).2 (by decide)).2.2 (by decide)).2 (by decide),
    ((messageHandler_orchestration defaultConfig
      (stubEnv sampleContainers "e1".toList (listed 200) (created 201) (status 204))
      { ChatID := 42, Text := "/addip 999.1.1.1".toList }
      (singleFile defaultCaddyFilePath scenarioDoc) (by decide)).2.2.1
      "999.1.1.1".toList (by decide)).1 (by decide)⟩

end CaddyTelegram
